import Mathlib

/-!
Verification development for the procedural city generator
(road-network growth engine, geometry kernel, seeded RNG, network unifier
and city-block extractor).

The TypeScript/JavaScript source is shallowly embedded: JS `number` is
modelled as `ℝ` (with `Real.sqrt`, `Real.sin`, `Real.cos`, `Real.arctan`
for the corresponding `Math` functions), 32-bit integer coercions of the
noise hash are modelled on `ℤ` with explicit reduction mod 2^32, and the
mutable data structures (the candidate segment mutated in place by
`localConstraints`, the global RNG seed, JS `Map`s keyed by rounded
coordinate strings) become explicit state passing, association lists and
integer-pair keys.  Object references held in `links` are replaced by
creation identifiers (`cid`), an arena-style encoding of the JS object
graph.
-/

noncomputable section

/-- JS `Math.round`: round half up, `⌊x + 1/2⌋`. -/
def jsRound (x : ℝ) : ℤ := ⌊x + 1 / 2⌋

/-- JS `Math.atan2 y x` (principal value in (-π, π], with `atan2 0 0 = 0`). -/
def jsAtan2 (y x : ℝ) : ℝ :=
  if 0 < x then Real.arctan (y / x)
  else if x < 0 then
    (if 0 ≤ y then Real.arctan (y / x) + Real.pi else Real.arctan (y / x) - Real.pi)
  else
    (if 0 < y then Real.pi / 2 else if y < 0 then -(Real.pi / 2) else 0)

/-- Model of `interface Point { x: number; y: number; }` -/
structure Point where
  x : ℝ
  y : ℝ

/-- Euclidean distance `Math.sqrt((q.x-p.x)**2 + (q.y-p.y)**2)` as inlined
throughout the source. -/
def euclid (p q : Point) : ℝ := Real.sqrt ((q.x - p.x) ^ 2 + (q.y - p.y) ^ 2)

/-- JS `Math.hypot a b`. -/
def jsHypot (a b : ℝ) : ℝ := Real.sqrt (a ^ 2 + b ^ 2)

/-- Model of `interface Segment` from `city-generator-logic.ts`.  The JS field `end`
is a Lean keyword and is rendered `endP`; the nested `links: {f, b}` object
holds object references and is rendered as two lists of creation ids
(`cid`), the arena encoding of the reference graph.  `cid` itself is a
modelling artifact: a unique id given to each created segment so that
links can be recorded without cyclic references. -/
structure Segment where
  id : ℕ
  start : Point
  endP : Point
  width : ℝ
  t : ℝ
  highway : Bool
  dir : ℝ
  length : ℝ
  severed : Bool
  linksF : List ℕ
  linksB : List ℕ
  cid : ℕ

namespace config

/-- Constant `HIGHWAY_SEGMENT_LENGTH: 400`. -/
def HIGHWAY_SEGMENT_LENGTH : ℝ := 400

/-- Constant `DEFAULT_SEGMENT_LENGTH: 300`. -/
def DEFAULT_SEGMENT_LENGTH : ℝ := 300

/-- Constant `ROAD_SNAP_DISTANCE: 50`. -/
def ROAD_SNAP_DISTANCE : ℝ := 50

end config

/-- Function `doSegmentsIntersect` from `city-generator-logic.ts` (parametric line
intersection; `null` is `none`). -/
def doSegmentsIntersect (seg1Start seg1End seg2Start seg2End : Point) :
    Option Point :=
  let x1 := seg1Start.x; let y1 := seg1Start.y
  let x2 := seg1End.x;   let y2 := seg1End.y
  let x3 := seg2Start.x; let y3 := seg2Start.y
  let x4 := seg2End.x;   let y4 := seg2End.y
  let denom := (x1 - x2) * (y3 - y4) - (y1 - y2) * (x3 - x4)
  if |denom| < 0.0001 then none
  else
    let t := ((x1 - x3) * (y3 - y4) - (y1 - y3) * (x3 - x4)) / denom
    let u := -((x1 - x2) * (y1 - y3) - (y1 - y2) * (x1 - x3)) / denom
    if 0 ≤ t ∧ t ≤ 1 ∧ 0 ≤ u ∧ u ≤ 1 then
      some ⟨x1 + t * (x2 - x1), y1 + t * (y2 - y1)⟩
    else none

/-- Function `createSegment` from `city-generator-logic.ts`; the extra `cid`
argument is the arena creation id (see `Segment.cid`). -/
def createSegment (start endp : Point) (t : ℝ) (highway : Bool) (cid : ℕ) :
    Segment :=
  let dx := endp.x - start.x
  let dy := endp.y - start.y
  { id := 0
    start := start
    endP := endp
    width := if highway then 16 else 6
    t := t
    highway := highway
    dir := jsAtan2 dy dx
    length := Real.sqrt (dx * dx + dy * dy)
    severed := false
    linksF := []
    linksB := []
    cid := cid }

/-- The module-level mutable RNG state `let seed = 1` is threaded
explicitly; `seedRandom(s)` overwrites whatever ambient value the global
seed had. -/
def seedRandom (s : ℝ) (_oldSeed : ℝ) : ℝ := s

/-- Function `random()` from `city-generator-logic.ts`: reads the global seed, then
post-increments it (`Math.sin(seed++)`); returns `x - Math.floor(x)` for
`x = sin(seed) * 10000`.  Result: (returned value, new seed state). -/
def random (seed : ℝ) : ℝ × ℝ :=
  (Int.fract (Real.sin seed * 10000), seed + 1)

end

/-- C2 (amended): `seedRandom s` resets the state to `s` regardless of its
prior value; each `random()` call increments the state by one and returns
`frac(sin(oldState) * 10000)`, which lies in `[0, 1)`.  (The state update
is a post-increment of the seed, not the returned fractional value.) -/
theorem random_amended_spec :
    (∀ s g : ℝ, seedRandom s g = s) ∧
    (∀ s : ℝ, (random s).1 = Int.fract (Real.sin s * 10000) ∧
      (random s).2 = s + 1 ∧ 0 ≤ (random s).1 ∧ (random s).1 < 1) :=
  ⟨fun _ _ => rfl,
   fun _ => ⟨rfl, rfl, Int.fract_nonneg _, Int.fract_lt_one _⟩⟩

/-- C2 counterexample: at state `0`, `random` moves the state to `1`, not
to `frac(sin 0 * 10000) = 0`, and the returned value (`0`) is not the new
state value (`1`). -/
theorem random_state_cex :
    (random 0).2 = 1 ∧ (random 0).1 = 0 ∧
    Int.fract (Real.sin 0 * 10000) = 0 ∧ (random 0).1 ≠ (random 0).2 := by
  have h : Int.fract (Real.sin 0 * 10000) = 0 := by
    rw [Real.sin_zero, zero_mul, Int.fract_zero]
  refine ⟨by simp [random], h, h, ?_⟩
  show Int.fract (Real.sin 0 * 10000) ≠ (0 : ℝ) + 1
  rw [h]
  norm_num

/-- C6: `doSegmentsIntersect` returns `none` when the determinant's
magnitude is below 1e-4 (parallel/colinear, covering zero-length segments)
or when either parameter `t`, `u` falls outside `[0,1]`, and otherwise
returns the parametric intersection point; in particular (0,0)-(100,0) vs
(50,-50)-(50,50) yields exactly (50,0), and parallel non-colinear
segments yield `none`. -/
theorem segmentIntersection_spec :
    (∀ p1 p2 p3 p4 : Point,
      |(p1.x - p2.x) * (p3.y - p4.y) - (p1.y - p2.y) * (p3.x - p4.x)| < 0.0001 →
      doSegmentsIntersect p1 p2 p3 p4 = none) ∧
    (∀ p1 p2 p3 p4 : Point,
      0.0001 ≤ |(p1.x - p2.x) * (p3.y - p4.y) - (p1.y - p2.y) * (p3.x - p4.x)| →
      ∀ t u : ℝ,
      t = ((p1.x - p3.x) * (p3.y - p4.y) - (p1.y - p3.y) * (p3.x - p4.x)) /
          ((p1.x - p2.x) * (p3.y - p4.y) - (p1.y - p2.y) * (p3.x - p4.x)) →
      u = (-((p1.x - p2.x) * (p1.y - p3.y) - (p1.y - p2.y) * (p1.x - p3.x))) /
          ((p1.x - p2.x) * (p3.y - p4.y) - (p1.y - p2.y) * (p3.x - p4.x)) →
      ((0 ≤ t ∧ t ≤ 1 ∧ 0 ≤ u ∧ u ≤ 1 →
        doSegmentsIntersect p1 p2 p3 p4 =
          some ⟨p1.x + t * (p2.x - p1.x), p1.y + t * (p2.y - p1.y)⟩) ∧
       (¬ (0 ≤ t ∧ t ≤ 1 ∧ 0 ≤ u ∧ u ≤ 1) →
        doSegmentsIntersect p1 p2 p3 p4 = none))) ∧
    doSegmentsIntersect ⟨0, 0⟩ ⟨100, 0⟩ ⟨50, -50⟩ ⟨50, 50⟩ = some ⟨50, 0⟩ ∧
    doSegmentsIntersect ⟨0, 0⟩ ⟨100, 0⟩ ⟨0, 10⟩ ⟨100, 10⟩ = none := by
  refine ⟨?_, ?_, ?_, ?_⟩
  · intro p1 p2 p3 p4 h
    simp only [doSegmentsIntersect]
    rw [if_pos h]
  · intro p1 p2 p3 p4 h t u ht hu
    subst ht; subst hu
    refine ⟨fun hin => ?_, fun hout => ?_⟩
    · simp only [doSegmentsIntersect]
      rw [if_neg (not_lt.mpr h), if_pos hin]
    · simp only [doSegmentsIntersect]
      rw [if_neg (not_lt.mpr h), if_neg hout]
  · simp only [doSegmentsIntersect]
    norm_num
  · simp only [doSegmentsIntersect]
    norm_num

/-- Witness for `segmentIntersection_spec`: a zero-length pair has
determinant 0 < 1e-4 and yields `none`. -/
theorem segmentIntersection_spec_witness :
    |((0 : ℝ) - 0) * (0 - 0) - (0 - 0) * (0 - 0)| < 0.0001 ∧
    doSegmentsIntersect ⟨0, 0⟩ ⟨0, 0⟩ ⟨0, 0⟩ ⟨0, 0⟩ = none :=
  ⟨by norm_num,
   segmentIntersection_spec.1 ⟨0, 0⟩ ⟨0, 0⟩ ⟨0, 0⟩ ⟨0, 0⟩ (by norm_num)⟩

noncomputable section

/-- The `// Check intersection` half of the `localConstraints` loop body:
possibly truncates the candidate at the intersection with `other` and
cross-links the two segments.  Returns (updated candidate, updated other). -/
def lcIntersectionCheck (segment other : Segment) : Segment × Segment :=
  match doSegmentsIntersect segment.start segment.endP other.start other.endP with
  | some intersection =>
    let distToIntersection := euclid segment.start intersection
    if 30 < distToIntersection then
      ({ segment with
          endP := intersection
          length := distToIntersection
          severed := true
          linksF := segment.linksF ++ [other.cid] },
       { other with linksF := other.linksF ++ [segment.cid] })
    else (segment, other)
  | none => (segment, other)

/-- The `// Check proximity snapping` half of the `localConstraints` loop
body: snaps the candidate's endpoint to `other`'s start (or end) when
within `ROAD_SNAP_DISTANCE`.  Returns (updated candidate, updated other). -/
def lcSnapCheck (segment other : Segment) : Segment × Segment :=
  let distToStart := euclid other.start segment.endP
  let distToEnd := euclid other.endP segment.endP
  if distToStart < config.ROAD_SNAP_DISTANCE then
    ({ segment with
        endP := other.start
        linksF := segment.linksF ++ [other.cid]
        severed := true },
     { other with linksB := other.linksB ++ [segment.cid] })
  else if distToEnd < config.ROAD_SNAP_DISTANCE then
    ({ segment with
        endP := other.endP
        linksF := segment.linksF ++ [other.cid]
        severed := true },
     { other with linksF := other.linksF ++ [segment.cid] })
  else (segment, other)

/-- One iteration of `for (const other of existingSegments)` in
`localConstraints`, acting on the accepted-array entry at index `i`:
intersection check first, then (on the possibly truncated candidate) the
proximity snap check; JS in-place mutation of `other` becomes `List.set`. -/
def lcIter (st : Segment × List Segment) (i : ℕ) : Segment × List Segment :=
  match st.2[i]? with
  | none => st
  | some other =>
    let r1 := lcIntersectionCheck st.1 other
    let r2 := lcSnapCheck r1.1 r1.2
    (r2.1, st.2.set i r2.2)

/-- Function `localConstraints` from `city-generator-logic.ts`: runs the loop body
over every existing segment and unconditionally returns `true` (the
candidate is only ever mutated, never rejected). -/
def localConstraints (segment : Segment) (existingSegments : List Segment) :
    Bool × Segment × List Segment :=
  (true,
   (List.range existingSegments.length).foldl lcIter (segment, existingSegments))

/-- The geometric consistency invariant of the spec: the stored `length`
is the Euclidean distance from `start` to `end` and the stored `dir` is
`atan2` of the end-minus-start displacement. -/
def geomInvariant (s : Segment) : Prop :=
  s.length = euclid s.start s.endP ∧
  s.dir = jsAtan2 (s.endP.y - s.start.y) (s.endP.x - s.start.x)

end

/-- The function `jsAtan2` is invariant under positive scaling of the displacement. -/
theorem jsAtan2_smul (c y x : ℝ) (hc : 0 < c) :
    jsAtan2 (c * y) (c * x) = jsAtan2 y x := by
  have hne : c ≠ 0 := ne_of_gt hc
  have hdiv : c * y / (c * x) = y / x := mul_div_mul_left y x hne
  unfold jsAtan2
  rcases lt_trichotomy x 0 with hx | hx | hx
  · have h1 : ¬ 0 < x := by linarith
    have h2 : c * x < 0 := mul_neg_of_pos_of_neg hc hx
    have h3 : ¬ 0 < c * x := by linarith
    rw [if_neg h1, if_neg h3, if_pos hx, if_pos h2, hdiv]
    by_cases hy : 0 ≤ y
    · rw [if_pos hy, if_pos (mul_nonneg hc.le hy)]
    · have h4 : ¬ 0 ≤ c * y := by
        push_neg at hy ⊢
        exact mul_neg_of_pos_of_neg hc hy
      rw [if_neg hy, if_neg h4]
  · rw [hx, mul_zero]
    simp only [lt_self_iff_false, if_false]
    by_cases hy : 0 < y
    · rw [if_pos hy, if_pos (mul_pos hc hy)]
    · have h4 : ¬ 0 < c * y := by
        intro h
        apply hy
        by_contra h5
        push_neg at h5
        nlinarith
      rw [if_neg hy, if_neg h4]
      by_cases hy2 : y < 0
      · rw [if_pos hy2, if_pos (mul_neg_of_pos_of_neg hc hy2)]
      · have h6 : ¬ c * y < 0 := by
          intro h
          apply hy2
          by_contra h5
          push_neg at h5
          nlinarith
        rw [if_neg hy2, if_neg h6]
  · rw [if_pos hx, if_pos (mul_pos hc hx), hdiv]

/-- A successful `doSegmentsIntersect` result lies on the first segment's
parametric line, at a parameter in `[0, 1]`. -/
theorem doSegmentsIntersect_some (p1 p2 p3 p4 q : Point)
    (h : doSegmentsIntersect p1 p2 p3 p4 = some q) :
    ∃ s : ℝ, 0 ≤ s ∧ s ≤ 1 ∧
      q.x = p1.x + s * (p2.x - p1.x) ∧ q.y = p1.y + s * (p2.y - p1.y) := by
  simp only [doSegmentsIntersect] at h
  split at h
  · exact absurd h (by simp)
  · split at h
    · rename_i hcond
      injection h with h'
      exact ⟨_, hcond.1, hcond.2.1, by rw [← h'], by rw [← h']⟩
    · exact absurd h (by simp)

/-- Derivation of `Real.sqrt a = b` from `b ^ 2 = a`, for nonnegative `b`. -/
theorem real_sqrt_eq_of_sq (a b : ℝ) (hb : 0 ≤ b) (h : b ^ 2 = a) :
    Real.sqrt a = b := by
  rw [← h, Real.sqrt_sq hb]

/-- C1 (amended): `length`/`dir` match the geometry when a segment is
created, and the intersection-truncation step of `localConstraints`
re-establishes the invariant (it resets `length` to the distance to the
new endpoint, and the truncation point lies along the stored `dir`); the
proximity-snap steps, however, move the endpoint without updating
`length` or `dir`, so snapped segments can violate the property (see the
counterexample). -/
theorem length_dir_invariant_amended :
    (∀ (start endp : Point) (t : ℝ) (hw : Bool) (cid : ℕ),
      geomInvariant (createSegment start endp t hw cid)) ∧
    (∀ (seg other : Segment) (inter : Point),
      geomInvariant seg →
      doSegmentsIntersect seg.start seg.endP other.start other.endP = some inter →
      30 < euclid seg.start inter →
      geomInvariant (lcIntersectionCheck seg other).1) := by
  constructor
  · intro start endp t hw cid
    unfold geomInvariant
    refine ⟨?_, rfl⟩
    show Real.sqrt ((endp.x - start.x) * (endp.x - start.x) +
        (endp.y - start.y) * (endp.y - start.y)) = euclid start endp
    unfold euclid
    congr 1
    ring
  · intro seg other inter hinv hsome hdist
    obtain ⟨s, hs0, _hs1, hqx, hqy⟩ := doSegmentsIntersect_some _ _ _ _ _ hsome
    have hspos : 0 < s := by
      rcases eq_or_lt_of_le hs0 with h | h
      · exfalso
        have hx : inter.x = seg.start.x := by rw [hqx, ← h]; ring
        have hy : inter.y = seg.start.y := by rw [hqy, ← h]; ring
        have hz : euclid seg.start inter = 0 := by
          unfold euclid
          rw [hx, hy]
          simp
        rw [hz] at hdist
        linarith
      · exact h
    unfold lcIntersectionCheck
    rw [hsome]
    dsimp only
    rw [if_pos hdist]
    unfold geomInvariant
    refine ⟨rfl, ?_⟩
    show seg.dir = jsAtan2 (inter.y - seg.start.y) (inter.x - seg.start.x)
    have hdy : inter.y - seg.start.y = s * (seg.endP.y - seg.start.y) := by
      rw [hqy]; ring
    have hdx : inter.x - seg.start.x = s * (seg.endP.x - seg.start.x) := by
      rw [hqx]; ring
    rw [hdy, hdx, jsAtan2_smul _ _ _ hspos]
    exact hinv.2

/-- Witness for `length_dir_invariant_amended`: the candidate
(0,0)→(200,0) is truncated at (100,0) by the crossing segment
(100,-100)→(100,100), and the invariant holds before and after. -/
theorem length_dir_invariant_amended_witness :
    geomInvariant (createSegment ⟨0, 0⟩ ⟨200, 0⟩ 0 false 1) ∧
    doSegmentsIntersect (createSegment ⟨0, 0⟩ ⟨200, 0⟩ 0 false 1).start
      (createSegment ⟨0, 0⟩ ⟨200, 0⟩ 0 false 1).endP
      (createSegment ⟨100, -100⟩ ⟨100, 100⟩ 0 false 0).start
      (createSegment ⟨100, -100⟩ ⟨100, 100⟩ 0 false 0).endP = some ⟨100, 0⟩ ∧
    30 < euclid (createSegment ⟨0, 0⟩ ⟨200, 0⟩ 0 false 1).start ⟨100, 0⟩ ∧
    geomInvariant (lcIntersectionCheck (createSegment ⟨0, 0⟩ ⟨200, 0⟩ 0 false 1)
      (createSegment ⟨100, -100⟩ ⟨100, 100⟩ 0 false 0)).1 := by
  have hsome : doSegmentsIntersect (createSegment ⟨0, 0⟩ ⟨200, 0⟩ 0 false 1).start
      (createSegment ⟨0, 0⟩ ⟨200, 0⟩ 0 false 1).endP
      (createSegment ⟨100, -100⟩ ⟨100, 100⟩ 0 false 0).start
      (createSegment ⟨100, -100⟩ ⟨100, 100⟩ 0 false 0).endP = some ⟨100, 0⟩ := by
    show doSegmentsIntersect ⟨0, 0⟩ ⟨200, 0⟩ ⟨100, -100⟩ ⟨100, 100⟩ = some ⟨100, 0⟩
    simp only [doSegmentsIntersect]
    norm_num
  have hdist : 30 < euclid (createSegment ⟨0, 0⟩ ⟨200, 0⟩ 0 false 1).start
      (⟨100, 0⟩ : Point) := by
    show (30 : ℝ) < euclid ⟨0, 0⟩ ⟨100, 0⟩
    unfold euclid
    rw [show (((100 : ℝ) - 0) ^ 2 + (0 - 0) ^ 2) = 10000 by norm_num]
    rw [real_sqrt_eq_of_sq 10000 100 (by norm_num) (by norm_num)]
    norm_num
  exact ⟨length_dir_invariant_amended.1 ⟨0, 0⟩ ⟨200, 0⟩ 0 false 1, hsome, hdist,
    length_dir_invariant_amended.2 _ _ ⟨100, 0⟩
      (length_dir_invariant_amended.1 ⟨0, 0⟩ ⟨200, 0⟩ 0 false 1) hsome hdist⟩

noncomputable section

/-- Candidate segment (0,0)→(100,0) for the C1 counterexample run. -/
def cexCand : Segment := createSegment ⟨0, 0⟩ ⟨100, 0⟩ 0 false 1

/-- Accepted segment (90,30)→(90,130) whose start lies within snap range
(distance √1000 < 50) of the candidate's endpoint. -/
def cexOther : Segment := createSegment ⟨90, 30⟩ ⟨90, 130⟩ 0 false 0

/-- The candidate as mutated by `localConstraints` in the C1
counterexample run. -/
def cexRes : Segment := (localConstraints cexCand [cexOther]).2.1

end

/-- The two fixture segments do not geometrically intersect. -/
theorem cex_no_intersection :
    doSegmentsIntersect cexCand.start cexCand.endP cexOther.start cexOther.endP
      = none := by
  show doSegmentsIntersect ⟨0, 0⟩ ⟨100, 0⟩ ⟨90, 30⟩ ⟨90, 130⟩ = none
  simp only [doSegmentsIntersect]
  norm_num

/-- Evaluating `localConstraints` on the fixture: the intersection check
does nothing, the snap check moves the endpoint to (90,30), and `length`
and `dir` are left untouched. -/
theorem cexRes_eval :
    cexRes = { cexCand with
      endP := ⟨90, 30⟩
      linksF := [0]
      severed := true } := by
  have hIC : lcIntersectionCheck cexCand cexOther = (cexCand, cexOther) := by
    unfold lcIntersectionCheck
    rw [cex_no_intersection]
  have hlt : euclid cexOther.start cexCand.endP < config.ROAD_SNAP_DISTANCE := by
    show euclid ⟨90, 30⟩ ⟨100, 0⟩ < (50 : ℝ)
    unfold euclid
    rw [show (((100 : ℝ) - 90) ^ 2 + (0 - 30) ^ 2) = 1000 by norm_num]
    rw [(Real.sqrt_lt' (by norm_num : (0 : ℝ) < 50))]
    norm_num
  have hSC : lcSnapCheck cexCand cexOther =
      ({ cexCand with
          endP := cexOther.start
          linksF := cexCand.linksF ++ [cexOther.cid]
          severed := true },
       { cexOther with linksB := cexOther.linksB ++ [cexCand.cid] }) := by
    unfold lcSnapCheck
    rw [if_pos hlt]
  have hstep : lcIter (cexCand, [cexOther]) 0 =
      ({ cexCand with
          endP := cexOther.start
          linksF := cexCand.linksF ++ [cexOther.cid]
          severed := true },
       [{ cexOther with linksB := cexOther.linksB ++ [cexCand.cid] }]) := by
    unfold lcIter
    rw [show (([cexOther] : List Segment)[0]?) = some cexOther from rfl]
    dsimp only
    rw [hIC]
    dsimp only
    rw [hSC]
    rfl
  unfold cexRes localConstraints
  rw [show List.range ([cexOther] : List Segment).length = [0] from rfl,
    List.foldl_cons, List.foldl_nil, hstep]
  rfl

/-- C1 counterexample: after the snap, the stored `length` (100) exceeds
the true start-to-end distance (√9000 ≤ 95) by at least 5, far beyond any
floating tolerance, so the accepted-segment invariant
`length = Euclidean(start, end)` fails for this `localConstraints`
output. -/
theorem length_dir_cex :
    cexRes.severed = true ∧
    cexRes.length = 100 ∧
    euclid cexRes.start cexRes.endP ≤ 95 ∧
    5 ≤ cexRes.length - euclid cexRes.start cexRes.endP ∧
    cexRes.length ≠ euclid cexRes.start cexRes.endP := by
  have h100 : cexRes.length = 100 := by
    rw [cexRes_eval]
    show Real.sqrt ((100 - 0) * (100 - 0) + (0 - 0) * (0 - 0)) = 100
    rw [show (((100 : ℝ) - 0) * (100 - 0) + (0 - 0) * (0 - 0)) = 10000 by norm_num]
    exact real_sqrt_eq_of_sq 10000 100 (by norm_num) (by norm_num)
  have heuc : euclid cexRes.start cexRes.endP = Real.sqrt 9000 := by
    rw [cexRes_eval]
    show euclid ⟨0, 0⟩ ⟨90, 30⟩ = _
    unfold euclid
    norm_num
  have hb : Real.sqrt 9000 ≤ 95 := by
    calc Real.sqrt 9000 ≤ Real.sqrt 9025 := Real.sqrt_le_sqrt (by norm_num)
    _ = 95 := real_sqrt_eq_of_sq 9025 95 (by norm_num) (by norm_num)
  refine ⟨?_, h100, ?_, ?_, ?_⟩
  · rw [cexRes_eval]
  · rw [heuc]; exact hb
  · rw [h100, heuc]; linarith
  · rw [h100, heuc]
    intro h
    rw [← h] at hb
    linarith

noncomputable section

/-- JS `ToUint32` of an integer value, idealized to exact integer
arithmetic mod 2^32. -/
def toUint32 (z : ℤ) : ℤ := z % 4294967296

/-- JS `ToInt32`: two's-complement 32-bit reinterpretation. -/
def toInt32 (z : ℤ) : ℤ :=
  let m := z % 4294967296
  if m < 2147483648 then m else m - 4294967296

/-- JS `z >>> k` (unsigned right shift). -/
def jsShiftRightUnsigned (z : ℤ) (k : ℕ) : ℤ := toUint32 z / 2 ^ k

/-- JS `a ^ b` (32-bit xor; both operands coerced, result signed). -/
def jsXor32 (a b : ℤ) : ℤ :=
  toInt32 (Int.ofNat (Nat.xor (toUint32 a).toNat (toUint32 b).toNat))

/-- The inner closure `hash` of `noise` in `city-generator-logic.ts`
(renamed: `hash` collides with `Hashable.hash`).  The float64
multiplications are idealized to exact integer arithmetic. -/
def latticeHash (n : ℤ) : ℝ :=
  let h0 : ℤ := n * 374761393 + 668265263
  let h1 : ℤ := jsXor32 h0 (jsShiftRightUnsigned h0 13) * 1274126177
  ((jsXor32 h1 (jsShiftRightUnsigned h1 16) : ℤ) : ℝ) / 4294967296 + 0.5

/-- Function `fade` inside `noise`. -/
def fade (t : ℝ) : ℝ := t * t * (3 - 2 * t)

/-- Function `noise` (lattice value noise) from `city-generator-logic.ts`. -/
def noise (x y : ℝ) : ℝ :=
  let ix : ℤ := ⌊x⌋
  let iy : ℤ := ⌊y⌋
  let fx : ℝ := x - ix
  let fy : ℝ := y - iy
  let a := latticeHash (ix + iy * 57)
  let b := latticeHash (ix + 1 + iy * 57)
  let c := latticeHash (ix + (iy + 1) * 57)
  let d := latticeHash (ix + 1 + (iy + 1) * 57)
  let i1 := a + fade fx * (b - a)
  let i2 := c + fade fx * (d - c)
  i1 + fade fy * (i2 - i1)

/-- The three octave iterations of `heatmapNoise`, unrolled as a
recursion over the remaining octave count. -/
def heatmapOctaves : ℕ → ℝ → ℝ → ℝ → ℝ → ℝ
  | 0, _, _, _, _ => 0
  | i + 1, x, y, amplitude, frequency =>
      noise (x * frequency) (y * frequency) * amplitude +
      heatmapOctaves i x y (amplitude * 0.5) (frequency * 2)

/-- Function `heatmapNoise` (population field) from `city-generator-logic.ts`. -/
def heatmapNoise (x y : ℝ) : ℝ :=
  max 0 (min 1 (heatmapOctaves 3 x y 1 0.005))

/-- Function `globalGoals` from `city-generator-logic.ts`.  The global RNG seed
and the arena creation-id counter are threaded explicitly; result is
(newBranches, updated previousSegment, new seed, new cid counter).
The straight and curved highway continuations share one cid because
exactly one of them survives; JS `&&` short-circuiting means a branch
probability roll only consumes a random number when the population
threshold test before it passes. -/
def globalGoals (previousSegment : Segment) (seed : ℝ) (cid : ℕ) :
    List Segment × Segment × ℝ × ℕ :=
  if previousSegment.severed then ([], previousSegment, seed, cid) else
  let population := heatmapNoise previousSegment.endP.x previousSegment.endP.y
  let res : List Segment × ℝ × ℕ :=
    if previousSegment.highway then
      let continueStraight := createSegment previousSegment.endP
        ⟨previousSegment.endP.x +
            Real.cos previousSegment.dir * config.HIGHWAY_SEGMENT_LENGTH,
         previousSegment.endP.y +
            Real.sin previousSegment.dir * config.HIGHWAY_SEGMENT_LENGTH⟩
        0 true cid
      let r1 := random seed
      let curveAngle := previousSegment.dir + (r1.1 - 0.5) * 0.3
      let curvedPath := createSegment previousSegment.endP
        ⟨previousSegment.endP.x +
            Real.cos curveAngle * config.HIGHWAY_SEGMENT_LENGTH,
         previousSegment.endP.y +
            Real.sin curveAngle * config.HIGHWAY_SEGMENT_LENGTH⟩
        0 true cid
      let straightPop := heatmapNoise continueStraight.endP.x continueStraight.endP.y
      let curvedPop := heatmapNoise curvedPath.endP.x curvedPath.endP.y
      let branches1 := if curvedPop > straightPop then [curvedPath] else [continueStraight]
      let step2 : List Segment × ℝ × ℕ :=
        if population > 0.3 then
          let r2 := random r1.2
          if r2.1 < 0.02 then
            let r3 := random r2.2
            let branchDir := previousSegment.dir +
              (if r3.1 < 0.5 then -(Real.pi / 2) else Real.pi / 2)
            let highwayBranch := createSegment previousSegment.endP
              ⟨previousSegment.endP.x +
                  Real.cos branchDir * config.HIGHWAY_SEGMENT_LENGTH,
               previousSegment.endP.y +
                  Real.sin branchDir * config.HIGHWAY_SEGMENT_LENGTH⟩
              0 true (cid + 1)
            (branches1 ++ [highwayBranch], r3.2, cid + 2)
          else (branches1, r2.2, cid + 1)
        else (branches1, r1.2, cid + 1)
      let step3 : List Segment × ℝ × ℕ :=
        if population > 0.2 then
          let r4 := random step2.2.1
          if r4.1 < 0.1 then
            let r5 := random r4.2
            let streetDir := previousSegment.dir +
              (if r5.1 < 0.5 then -(Real.pi / 2) else Real.pi / 2)
            let streetBranch := createSegment previousSegment.endP
              ⟨previousSegment.endP.x +
                  Real.cos streetDir * config.DEFAULT_SEGMENT_LENGTH,
               previousSegment.endP.y +
                  Real.sin streetDir * config.DEFAULT_SEGMENT_LENGTH⟩
              3 false step2.2.2
            (step2.1 ++ [streetBranch], r5.2, step2.2.2 + 1)
          else (step2.1, r4.2, step2.2.2)
        else step2
      step3
    else
      if population > 0.2 then
        let continueStraight := createSegment previousSegment.endP
          ⟨previousSegment.endP.x +
              Real.cos previousSegment.dir * config.DEFAULT_SEGMENT_LENGTH,
           previousSegment.endP.y +
              Real.sin previousSegment.dir * config.DEFAULT_SEGMENT_LENGTH⟩
          0 false cid
        let r1 := random seed
        if r1.1 < 0.15 then
          let r2 := random r1.2
          let branchDir := previousSegment.dir +
            (if r2.1 < 0.5 then -(Real.pi / 2) else Real.pi / 2)
          let streetBranch := createSegment previousSegment.endP
            ⟨previousSegment.endP.x +
                Real.cos branchDir * config.DEFAULT_SEGMENT_LENGTH,
             previousSegment.endP.y +
                Real.sin branchDir * config.DEFAULT_SEGMENT_LENGTH⟩
            1 false (cid + 1)
          ([continueStraight, streetBranch], r2.2, cid + 2)
        else ([continueStraight], r1.2, cid + 1)
      else ([], seed, cid)
  let newBranches := res.1.map fun branch =>
    { branch with linksB := branch.linksB ++ [previousSegment.cid] }
  let prev' := { previousSegment with
    linksF := previousSegment.linksF ++ res.1.map (·.cid) }
  (newBranches, prev', res.2.1, res.2.2)

end

noncomputable section

/-- Default segment (needed to totalize the JS `splice(...)[0]` read). -/
instance : Inhabited Segment := ⟨createSegment ⟨0, 0⟩ ⟨0, 0⟩ 0 false 0⟩

/-- State of the main generation loop of `generateCity`
(`city-generator.tsx`): the priority queue, the accepted list, the global
RNG seed and the arena cid counter. -/
structure GenState where
  priorityQ : List Segment
  newSegments : List Segment
  seed : ℝ
  nextCid : ℕ

/-- The `priorityQ.forEach` minimum-`t` scan: `minT` starts at `Infinity`
(modelled by `none`), `minIndex` at 0, strict `<` comparison, first
strict minimum wins. -/
def findMinT (q : List Segment) : ℕ :=
  (q.foldl
    (fun (acc : Option ℝ × ℕ × ℕ) seg =>
      match acc.1 with
      | none => (some seg.t, acc.2.2, acc.2.2 + 1)
      | some m =>
          if seg.t < m then (some seg.t, acc.2.2, acc.2.2 + 1)
          else (acc.1, acc.2.1, acc.2.2 + 1))
    (none, 0, 0)).2.1

/-- One iteration of the main generation loop: remove the minimum-`t`
entry, run `localConstraints` against the accepted list, push the
(possibly mutated) candidate, then run `globalGoals` and enqueue its
branches with `t := currentSegment.t + 1 + branch.t`.  The JS push of
`currentSegment` happens before `globalGoals` mutates its links; since
the array holds a reference, the stored element carries the links, which
is modelled by appending the post-`globalGoals` segment. -/
def genStep (st : GenState) : GenState :=
  let minIndex := findMinT st.priorityQ
  let currentSegment := st.priorityQ.getD minIndex default
  let rest := st.priorityQ.eraseIdx minIndex
  let lcRes := localConstraints currentSegment st.newSegments
  if lcRes.1 then
    let gg := globalGoals lcRes.2.1 st.seed st.nextCid
    { priorityQ := rest ++
        gg.1.map (fun branch => { branch with t := lcRes.2.1.t + 1 + branch.t }),
      newSegments := lcRes.2.2 ++ [gg.2.1],
      seed := gg.2.2.1,
      nextCid := gg.2.2.2 }
  else
    { priorityQ := rest, newSegments := lcRes.2.2,
      seed := st.seed, nextCid := st.nextCid }

end

/-- One `lcIter` application preserves the accepted-array length. -/
theorem lcIter_length (st : Segment × List Segment) (i : ℕ) :
    (lcIter st i).2.length = st.2.length := by
  unfold lcIter
  cases h : st.2[i]? with
  | none => rfl
  | some other => simp

/-- The `localConstraints` fold preserves the accepted-array length. -/
theorem foldl_lcIter_length (l : List ℕ) (st : Segment × List Segment) :
    (l.foldl lcIter st).2.length = st.2.length := by
  induction l generalizing st with
  | nil => rfl
  | cons a as ih => rw [List.foldl_cons, ih, lcIter_length]

/-- Every generation step appends exactly one accepted segment. -/
theorem genStep_segments_length (st : GenState) :
    (genStep st).newSegments.length = st.newSegments.length + 1 := by
  unfold genStep
  show ((localConstraints _ _).2.2 ++ [_]).length = _
  rw [List.length_append]
  unfold localConstraints
  rw [foldl_lcIter_length]
  rfl

noncomputable section

open Classical in
/-- The main `while` loop of `generateCity`: loop while the queue is
non-empty and the accepted count is below `segmentLimit`.  Termination:
every iteration grows the accepted list by one (`genStep_segments_length`)
while the guard bounds it by `segmentLimit`. -/
def genLoop (segmentLimit : ℕ) (st : GenState) : GenState :=
  if h : st.priorityQ ≠ [] ∧ st.newSegments.length < segmentLimit then
    genLoop segmentLimit (genStep st)
  else st
termination_by segmentLimit - st.newSegments.length
decreasing_by
  rw [genStep_segments_length]
  omega

/-- Definition `const rootSegment = createSegment({x:0,y:0},{x:HIGHWAY_SEGMENT_LENGTH,y:0},0,true)`. -/
def rootSegment : Segment :=
  createSegment ⟨0, 0⟩ ⟨config.HIGHWAY_SEGMENT_LENGTH, 0⟩ 0 true 0

/-- Definition `const oppositeSegment = createSegment({x:-HIGHWAY_SEGMENT_LENGTH,y:0},{x:0,y:0},0,true)`. -/
def oppositeSegment : Segment :=
  createSegment ⟨-config.HIGHWAY_SEGMENT_LENGTH, 0⟩ ⟨0, 0⟩ 0 true 1

/-- State of `rootSegment` after `rootSegment.links.b.push(oppositeSegment)`. -/
def rootSegmentLinked : Segment :=
  { rootSegment with linksB := rootSegment.linksB ++ [oppositeSegment.cid] }

/-- State of `oppositeSegment` after `oppositeSegment.links.f.push(rootSegment)`. -/
def oppositeSegmentLinked : Segment :=
  { oppositeSegment with linksF := oppositeSegment.linksF ++ [rootSegment.cid] }

/-- The loop state right before the main generation loop starts:
`priorityQ.push(rootSegment, oppositeSegment)` on an empty accepted
list. -/
def initialGenState (seed0 : ℝ) : GenState :=
  { priorityQ := [rootSegmentLinked, oppositeSegmentLinked],
    newSegments := [], seed := seed0, nextCid := 2 }

/-- Function `generateCity` from `city-generator.tsx` (road-network part):
`seedRandom(useSeed)` overwrites the ambient global seed, the two initial
highway segments are created and linked, the growth loop runs, and ids
are assigned by final index.  Returns the accepted list and the final
RNG state. -/
def generateCity (useSeed : ℝ) (segmentLimit : ℕ) (ambientSeed : ℝ) :
    List Segment × ℝ :=
  let seed0 := seedRandom useSeed ambientSeed
  let final := genLoop segmentLimit (initialGenState seed0)
  (final.newSegments.mapIdx (fun i seg => { seg with id := i }), final.seed)

end

/-- C3: `localConstraints` always returns `true` — there is no rejection
outcome — and consequently every iteration of the growth loop appends
exactly one (possibly mutated) candidate to the accepted list. -/
theorem localConstraints_always_accepts :
    (∀ (segment : Segment) (existingSegments : List Segment),
      (localConstraints segment existingSegments).1 = true) ∧
    (∀ st : GenState, ∃ pre c,
      (genStep st).newSegments = pre ++ [c] ∧
      pre.length = st.newSegments.length) := by
  constructor
  · intro segment existingSegments
    rfl
  · intro st
    refine ⟨(localConstraints (st.priorityQ.getD (findMinT st.priorityQ) default)
        st.newSegments).2.2,
      (globalGoals (localConstraints (st.priorityQ.getD (findMinT st.priorityQ) default)
        st.newSegments).2.1 st.seed st.nextCid).2.1, rfl, ?_⟩
    unfold localConstraints
    rw [foldl_lcIter_length]

/-- C4: with the same `useSeed` and `segmentLimit`, repeated runs produce
identical outputs — in particular the ordered accepted-segment sequence
agrees at every position — regardless of the ambient global RNG state
left behind by earlier activity, because `seedRandom` overwrites it and
the generation loop consumes only the seeded stream. -/
theorem generateCity_deterministic (useSeed : ℝ) (segmentLimit : ℕ)
    (g1 g2 : ℝ) :
    generateCity useSeed segmentLimit g1 = generateCity useSeed segmentLimit g2 ∧
    (∀ i : ℕ, ((generateCity useSeed segmentLimit g1).1)[i]? =
      ((generateCity useSeed segmentLimit g2).1)[i]?) :=
  ⟨rfl, fun _ => rfl⟩

/-- The growth loop never pushes the accepted count past the limit. -/
theorem genLoop_bound (segmentLimit : ℕ) (st : GenState)
    (h : st.newSegments.length ≤ segmentLimit) :
    (genLoop segmentLimit st).newSegments.length ≤ segmentLimit := by
  by_cases hc : st.priorityQ ≠ [] ∧ st.newSegments.length < segmentLimit
  · rw [genLoop, dif_pos hc]
    exact genLoop_bound segmentLimit (genStep st)
      (by rw [genStep_segments_length]; omega)
  · rw [genLoop, dif_neg hc]
    exact h
termination_by segmentLimit - st.newSegments.length
decreasing_by
  rw [genStep_segments_length]
  omega

/-- C5: the growth loop terminates (it is a total function defined by the
decreasing measure `segmentLimit - accepted count`, each iteration
appending exactly one segment), and the accepted-segment count never
exceeds `segmentLimit`. -/
theorem generateCity_terminates_within_limit (useSeed : ℝ)
    (segmentLimit : ℕ) (ambientSeed : ℝ) :
    ((generateCity useSeed segmentLimit ambientSeed).1).length ≤ segmentLimit ∧
    (∀ st : GenState,
      (genStep st).newSegments.length = st.newSegments.length + 1) := by
  constructor
  · show ((genLoop segmentLimit (initialGenState useSeed)).newSegments.mapIdx _).length
      ≤ segmentLimit
    rw [List.length_mapIdx]
    exact genLoop_bound segmentLimit (initialGenState useSeed) (by simp [initialGenState])
  · exact genStep_segments_length

/-- The root highway's stored direction is 0 (pointing along +x). -/
theorem rootSegment_dir_eq : rootSegmentLinked.dir = 0 := by
  show jsAtan2 ((0 : ℝ) - 0) (config.HIGHWAY_SEGMENT_LENGTH - 0) = 0
  rw [show (0 : ℝ) - 0 = 0 by norm_num,
    show config.HIGHWAY_SEGMENT_LENGTH - 0 = 400 by
      norm_num [config.HIGHWAY_SEGMENT_LENGTH]]
  unfold jsAtan2
  rw [if_pos (by norm_num : (0 : ℝ) < 400)]
  norm_num [Real.arctan_zero]

/-- The opposite highway's stored direction is also 0 (its displacement
(0,0) - (-400,0) likewise points along +x). -/
theorem oppositeSegment_dir_eq : oppositeSegmentLinked.dir = 0 := by
  show jsAtan2 ((0 : ℝ) - 0) (0 - -config.HIGHWAY_SEGMENT_LENGTH) = 0
  rw [show (0 : ℝ) - 0 = 0 by norm_num,
    show (0 : ℝ) - -config.HIGHWAY_SEGMENT_LENGTH = 400 by
      norm_num [config.HIGHWAY_SEGMENT_LENGTH]]
  unfold jsAtan2
  rw [if_pos (by norm_num : (0 : ℝ) < 400)]
  norm_num [Real.arctan_zero]

/-- The root highway's stored length is the highway length 400. -/
theorem rootSegment_length_eq : rootSegmentLinked.length = 400 := by
  show Real.sqrt ((config.HIGHWAY_SEGMENT_LENGTH - 0) * (config.HIGHWAY_SEGMENT_LENGTH - 0)
    + (0 - 0) * (0 - 0)) = 400
  rw [show (config.HIGHWAY_SEGMENT_LENGTH - 0) * (config.HIGHWAY_SEGMENT_LENGTH - 0)
      + ((0 : ℝ) - 0) * (0 - 0) = 160000 by
    norm_num [config.HIGHWAY_SEGMENT_LENGTH]]
  exact real_sqrt_eq_of_sq 160000 400 (by norm_num) (by norm_num)

/-- The opposite highway's stored length is the highway length 400. -/
theorem oppositeSegment_length_eq : oppositeSegmentLinked.length = 400 := by
  show Real.sqrt ((0 - -config.HIGHWAY_SEGMENT_LENGTH) * (0 - -config.HIGHWAY_SEGMENT_LENGTH)
    + (0 - 0) * (0 - 0)) = 400
  rw [show ((0 : ℝ) - -config.HIGHWAY_SEGMENT_LENGTH) * (0 - -config.HIGHWAY_SEGMENT_LENGTH)
      + ((0 : ℝ) - 0) * (0 - 0) = 160000 by
    norm_num [config.HIGHWAY_SEGMENT_LENGTH]]
  exact real_sqrt_eq_of_sq 160000 400 (by norm_num) (by norm_num)

/-- C9 (amended): at the start of every run, exactly two colinear highway
segments of highway length 400 touching the origin are created — the root
from (0,0) to (400,0) and the opposite from (-400,0) to (0,0) — both with
stored direction 0 (the same +x direction, not opposite directions), the
root's backward links holding the opposite and the opposite's forward
links holding the root, and both enqueued with `t = 0` as the entire
initial queue. -/
theorem initial_highways_amended :
    rootSegmentLinked.start = ⟨0, 0⟩ ∧
    rootSegmentLinked.endP = ⟨400, 0⟩ ∧
    oppositeSegmentLinked.start = ⟨-400, 0⟩ ∧
    oppositeSegmentLinked.endP = ⟨0, 0⟩ ∧
    rootSegmentLinked.highway = true ∧
    oppositeSegmentLinked.highway = true ∧
    rootSegmentLinked.t = 0 ∧
    oppositeSegmentLinked.t = 0 ∧
    rootSegmentLinked.length = 400 ∧
    oppositeSegmentLinked.length = 400 ∧
    rootSegmentLinked.dir = 0 ∧
    oppositeSegmentLinked.dir = 0 ∧
    rootSegmentLinked.linksB = [oppositeSegmentLinked.cid] ∧
    rootSegmentLinked.linksF = [] ∧
    oppositeSegmentLinked.linksF = [rootSegmentLinked.cid] ∧
    oppositeSegmentLinked.linksB = [] ∧
    (∀ seed0 : ℝ, (initialGenState seed0).priorityQ =
      [rootSegmentLinked, oppositeSegmentLinked] ∧
      (initialGenState seed0).newSegments = []) := by
  refine ⟨?_, ?_, ?_, ?_, rfl, rfl, rfl, rfl,
    rootSegment_length_eq, oppositeSegment_length_eq,
    rootSegment_dir_eq, oppositeSegment_dir_eq,
    rfl, rfl, rfl, rfl, fun seed0 => ⟨rfl, rfl⟩⟩
  · rfl
  · show (⟨config.HIGHWAY_SEGMENT_LENGTH, 0⟩ : Point) = ⟨400, 0⟩
    norm_num [config.HIGHWAY_SEGMENT_LENGTH]
  · show (⟨-config.HIGHWAY_SEGMENT_LENGTH, 0⟩ : Point) = ⟨-400, 0⟩
    norm_num [config.HIGHWAY_SEGMENT_LENGTH]
  · rfl

/-- C9 counterexample: the two initial highways do not point in opposite
directions — both displacement vectors equal (400, 0) and both stored
`dir` fields are 0, whereas opposite directions (atan2 values in
(-π, π]) would have to differ by π. -/
theorem initial_highways_direction_cex :
    rootSegmentLinked.dir = 0 ∧
    oppositeSegmentLinked.dir = 0 ∧
    oppositeSegmentLinked.dir = rootSegmentLinked.dir ∧
    ¬ (oppositeSegmentLinked.dir = rootSegmentLinked.dir + Real.pi ∨
       rootSegmentLinked.dir = oppositeSegmentLinked.dir + Real.pi) ∧
    oppositeSegmentLinked.endP.x - oppositeSegmentLinked.start.x =
      rootSegmentLinked.endP.x - rootSegmentLinked.start.x ∧
    oppositeSegmentLinked.endP.y - oppositeSegmentLinked.start.y =
      rootSegmentLinked.endP.y - rootSegmentLinked.start.y ∧
    rootSegmentLinked.endP.x - rootSegmentLinked.start.x = 400 ∧
    rootSegmentLinked.endP.y - rootSegmentLinked.start.y = 0 := by
  have hr := rootSegment_dir_eq
  have ho := oppositeSegment_dir_eq
  refine ⟨hr, ho, by rw [hr, ho], ?_, ?_, ?_, ?_, ?_⟩
  · rw [hr, ho]
    intro hcase
    have hpi : Real.pi = 0 := by
      rcases hcase with h | h <;> linarith
    exact Real.pi_ne_zero hpi
  · show (0 : ℝ) - -config.HIGHWAY_SEGMENT_LENGTH = config.HIGHWAY_SEGMENT_LENGTH - 0
    norm_num
  · show (0 : ℝ) - 0 = 0 - 0
    rfl
  · show config.HIGHWAY_SEGMENT_LENGTH - (0 : ℝ) = 400
    norm_num [config.HIGHWAY_SEGMENT_LENGTH]
  · show (0 : ℝ) - 0 = 0
    norm_num

noncomputable section

/-- Segment shape handled by `road-network-worker.js`: the generator's
output reduced to `{start, end, width, highway}`. -/
structure WSegment where
  start : Point
  endP : Point
  width : ℝ
  highway : Bool

/-- Function `getLineIntersection` from `road-network-worker.js` (same parametric
intersection as the generator's, but with threshold 1e-10). -/
def getLineIntersection (x1 y1 x2 y2 x3 y3 x4 y4 : ℝ) : Option Point :=
  let denom := (x1 - x2) * (y3 - y4) - (y1 - y2) * (x3 - x4)
  if |denom| < 1e-10 then none
  else
    let t := ((x1 - x3) * (y3 - y4) - (y1 - y3) * (x3 - x4)) / denom
    let u := -((x1 - x2) * (y1 - y3) - (y1 - y2) * (x1 - x3)) / denom
    if 0 ≤ t ∧ t ≤ 1 ∧ 0 ≤ u ∧ u ≤ 1 then
      some ⟨x1 + t * (x2 - x1), y1 + t * (y2 - y1)⟩
    else none

/-- Body of the worker's split pass for one index pair `(i, j)`:
intersect, and split either segment whose two endpoints are both farther
than 10 from the intersection (shorten in place, append the remainder). -/
def splitSegmentsAt (arr : List WSegment) (i j : ℕ) : List WSegment :=
  match arr[i]?, arr[j]? with
  | some seg1, some seg2 =>
    (match getLineIntersection seg1.start.x seg1.start.y seg1.endP.x seg1.endP.y
        seg2.start.x seg2.start.y seg2.endP.x seg2.endP.y with
     | some intersection =>
        let distToSeg1Start :=
          jsHypot (intersection.x - seg1.start.x) (intersection.y - seg1.start.y)
        let distToSeg1End :=
          jsHypot (intersection.x - seg1.endP.x) (intersection.y - seg1.endP.y)
        let distToSeg2Start :=
          jsHypot (intersection.x - seg2.start.x) (intersection.y - seg2.start.y)
        let distToSeg2End :=
          jsHypot (intersection.x - seg2.endP.x) (intersection.y - seg2.endP.y)
        let arr1 :=
          if distToSeg1Start > 10 ∧ distToSeg1End > 10 then
            (arr.set i { seg1 with endP := intersection }) ++
              [{ start := intersection, endP := seg1.endP,
                 width := seg1.width, highway := seg1.highway }]
          else arr
        if distToSeg2Start > 10 ∧ distToSeg2End > 10 then
          (arr1.set j { seg2 with endP := intersection }) ++
            [{ start := intersection, endP := seg2.endP,
               width := seg2.width, highway := seg2.highway }]
        else arr1
     | none => arr)
  | _, _ => arr

/-- The worker's split pass double loop.  The JS `for` loops re-read
`modifiedSegments.length`, so appended splits are visited too; the loop
terminates because every split puts more than 10 units between the new
endpoints, and the explicit `fuel` is only the usual recursion bound of
the embedding (unconsumed fuel never changes the result of a terminating
loop). -/
def splitLoop : ℕ → List WSegment → ℕ → ℕ → List WSegment
  | 0, arr, _, _ => arr
  | fuel + 1, arr, i, j =>
    if i < arr.length then
      if j < arr.length then splitLoop fuel (splitSegmentsAt arr i j) i (j + 1)
      else splitLoop fuel arr (i + 1) (i + 2)
    else arr

/-- Assign a snapped point into `start` or `end` of the segment at
`idx` (the `ep.seg.start = snapPoint` / `ep.seg.end = snapPoint`
assignments). -/
def applySnapAt (arr : List WSegment) (idx : ℕ) (isStart : Bool) (p : Point) :
    List WSegment :=
  match arr[idx]? with
  | none => arr
  | some s => arr.set idx (if isStart then { s with start := p } else { s with endP := p })

/-- Body of the worker's snap pass for one index pair `(i, j)`: the four
endpoint combinations are tested with the endpoint *positions captured
once* when the `endpoints` array is built (later assignments replace the
field with a fresh object, so the captured references keep the old
coordinates within the pair), and each combination within 50 units moves
both endpoints to their midpoint. -/
def snapPair (arr : List WSegment) (i j : ℕ) : List WSegment :=
  match arr[i]?, arr[j]? with
  | some seg1, some seg2 =>
    let endpoints1 : List (Bool × Point) := [(true, seg1.start), (false, seg1.endP)]
    let endpoints2 : List (Bool × Point) := [(true, seg2.start), (false, seg2.endP)]
    endpoints1.foldl (fun acc1 ep1 =>
      endpoints2.foldl (fun acc2 ep2 =>
        let dist := jsHypot (ep1.2.x - ep2.2.x) (ep1.2.y - ep2.2.y)
        if dist ≤ 50 then
          let snapPoint : Point := ⟨(ep1.2.x + ep2.2.x) / 2, (ep1.2.y + ep2.2.y) / 2⟩
          applySnapAt (applySnapAt acc2 i ep1.1 snapPoint) j ep2.1 snapPoint
        else acc2) acc1) arr
  | _, _ => arr

/-- The worker's snap pass (`SNAP_DISTANCE = 50`): all unordered index
pairs in order; snaps chain across the scan. -/
def snapPass (arr : List WSegment) : List WSegment :=
  (List.range arr.length).foldl
    (fun acc1 i =>
      (List.range' (i + 1) (arr.length - (i + 1))).foldl
        (fun acc2 j => snapPair acc2 i j) acc1)
    arr

/-- One `{ segment, isStart, index }` record pushed into a connection
point's `segments` list. -/
structure EndpointRef where
  segment : WSegment
  isStart : Bool
  index : ℕ

/-- A value of the worker's `connectionPoints` map. -/
structure ConnectionPoint where
  point : Point
  segments : List EndpointRef
  isIntersection : Bool

/-- The `${Math.round(x)},${Math.round(y)}` map key. -/
def wkey (p : Point) : ℤ × ℤ := (jsRound p.x, jsRound p.y)

/-- Ensure a key exists (with `isIntersection: false` and the first-seen
point) and push one endpoint record, as the worker does per endpoint.
The JS `Map` preserves insertion order, modelled by an association
list. -/
def addConnection (m : List ((ℤ × ℤ) × ConnectionPoint)) (key : ℤ × ℤ)
    (p : Point) (entry : EndpointRef) : List ((ℤ × ℤ) × ConnectionPoint) :=
  if (m.find? (fun kv => decide (kv.1 = key))).isSome then
    m.map (fun kv => if kv.1 = key then
      (kv.1, { kv.2 with segments := kv.2.segments ++ [entry] }) else kv)
  else m ++ [(key, { point := p, segments := [entry], isIntersection := false })]

/-- Step 3 grouping: every segment contributes its start and end records
under their rounded keys, in index order. -/
def collectConnectionPoints (segments : List WSegment) :
    List ((ℤ × ℤ) × ConnectionPoint) :=
  segments.enum.foldl
    (fun m p =>
      let m1 := addConnection m (wkey p.2.start) p.2.start ⟨p.2, true, p.1⟩
      addConnection m1 (wkey p.2.endP) p.2.endP ⟨p.2, false, p.1⟩)
    []

/-- The `// Mark intersection points (where 3+ segments meet)` pass. -/
def markIntersections (m : List ((ℤ × ℤ) × ConnectionPoint)) :
    List ConnectionPoint :=
  m.map (fun kv =>
    if 3 ≤ kv.2.segments.length then { kv.2 with isIntersection := true } else kv.2)

/-- One entry of the worker's `unifiedPaths`. -/
structure UnifiedPath where
  start : Point
  endP : Point
  width : ℝ
  highway : Bool
  originalSegment : WSegment

/-- The worker's result record. -/
structure UnifiedNetwork where
  paths : List UnifiedPath
  connectionPoints : List ConnectionPoint
  intersections : List Point

/-- Function `buildUnifiedRoadNetwork` from `road-network-worker.js`: split pass,
snap pass, then connection-point grouping and classification. -/
def buildUnifiedRoadNetwork (segments : List WSegment) : UnifiedNetwork :=
  let afterSplit := splitLoop ((segments.length + 1) ^ 8) segments 0 1
  let afterSnap := snapPass afterSplit
  { paths := afterSnap.map (fun segment =>
      { start := segment.start, endP := segment.endP, width := segment.width,
        highway := segment.highway, originalSegment := segment }),
    connectionPoints := markIntersections (collectConnectionPoints afterSnap),
    intersections := [] }

end

/-- Lemma: `addConnection` keeps every stored `isIntersection` flag `false`. -/
theorem addConnection_false (m : List ((ℤ × ℤ) × ConnectionPoint))
    (key : ℤ × ℤ) (p : Point) (entry : EndpointRef)
    (hm : ∀ kv ∈ m, kv.2.isIntersection = false) :
    ∀ kv ∈ addConnection m key p entry, kv.2.isIntersection = false := by
  intro kv hkv
  unfold addConnection at hkv
  split at hkv
  · obtain ⟨kv0, hkv0, heq⟩ := List.mem_map.mp hkv
    by_cases hk : kv0.1 = key
    · rw [if_pos hk] at heq
      rw [← heq]
      exact hm kv0 hkv0
    · rw [if_neg hk] at heq
      rw [← heq]
      exact hm kv0 hkv0
  · rcases List.mem_append.mp hkv with h | h
    · exact hm kv h
    · rw [List.mem_singleton.mp h]

/-- Every entry of the grouped connection map starts out unmarked. -/
theorem collectConnectionPoints_false (segments : List WSegment) :
    ∀ kv ∈ collectConnectionPoints segments, kv.2.isIntersection = false := by
  unfold collectConnectionPoints
  have H : ∀ (l : List (ℕ × WSegment)) (m : List ((ℤ × ℤ) × ConnectionPoint)),
      (∀ kv ∈ m, kv.2.isIntersection = false) →
      ∀ kv ∈ l.foldl (fun m p =>
          addConnection (addConnection m (wkey p.2.start) p.2.start ⟨p.2, true, p.1⟩)
            (wkey p.2.endP) p.2.endP ⟨p.2, false, p.1⟩) m,
        kv.2.isIntersection = false := by
    intro l
    induction l with
    | nil => intro m hm kv hkv; exact hm kv hkv
    | cons a as ih =>
      intro m hm kv hkv
      exact ih _ (addConnection_false _ _ _ _ (addConnection_false _ _ _ _ hm)) kv hkv
  exact H _ [] (by intro kv h; cases h)

/-- C7: in `buildUnifiedRoadNetwork`'s output, a connection point is
classified `isIntersection = true` exactly when its rounded-coordinate
key collected 3 or more contributing segment endpoints; with fewer
(e.g. exactly 2 coincident endpoints) it is classified `false`. -/
theorem connectionPoint_classification (segments : List WSegment)
    (cp : ConnectionPoint)
    (h : cp ∈ (buildUnifiedRoadNetwork segments).connectionPoints) :
    cp.isIntersection = true ↔ 3 ≤ cp.segments.length := by
  have h' : cp ∈ markIntersections
      (collectConnectionPoints (snapPass (splitLoop ((segments.length + 1) ^ 8) segments 0 1))) := h
  unfold markIntersections at h'
  obtain ⟨kv, hkv, heq⟩ := List.mem_map.mp h'
  by_cases h3 : 3 ≤ kv.2.segments.length
  · rw [if_pos h3] at heq
    rw [← heq]
    exact ⟨fun _ => h3, fun _ => rfl⟩
  · rw [if_neg h3] at heq
    rw [← heq]
    constructor
    · intro hfalse
      rw [collectConnectionPoints_false _ kv hkv] at hfalse
      exact absurd hfalse (by simp)
    · intro hlen
      exact absurd hlen h3

noncomputable section

/-- One-segment fixture for exercising the unifier classification. -/
def unifierFixtureSeg : WSegment := ⟨⟨0, 0⟩, ⟨1000, 0⟩, 6, false⟩

/-- The connection point the fixture produces at the origin. -/
def unifierFixtureCp : ConnectionPoint :=
  { point := ⟨0, 0⟩,
    segments := [⟨unifierFixtureSeg, true, 0⟩],
    isIntersection := false }

end

/-- Evaluating the unifier pipeline on the one-segment fixture: no
splits, no snaps, two connection points with one endpoint each, both
left unmarked. -/
theorem unifierFixture_eval :
    (buildUnifiedRoadNetwork [unifierFixtureSeg]).connectionPoints =
      [unifierFixtureCp,
       { point := ⟨1000, 0⟩,
         segments := [⟨unifierFixtureSeg, false, 0⟩],
         isIntersection := false }] := by
  have hk1 : wkey (⟨0, 0⟩ : Point) = ((0 : ℤ), (0 : ℤ)) := by
    unfold wkey jsRound
    norm_num
  have hk2 : wkey (⟨1000, 0⟩ : Point) = ((1000 : ℤ), (0 : ℤ)) := by
    unfold wkey jsRound
    norm_num
  have hsplit : splitLoop ((([unifierFixtureSeg] : List WSegment).length + 1) ^ 8)
      [unifierFixtureSeg] 0 1 = [unifierFixtureSeg] := rfl
  show markIntersections (collectConnectionPoints (snapPass
    (splitLoop ((([unifierFixtureSeg] : List WSegment).length + 1) ^ 8)
      [unifierFixtureSeg] 0 1))) = _
  rw [hsplit]
  rw [show snapPass [unifierFixtureSeg] = [unifierFixtureSeg] from rfl]
  unfold collectConnectionPoints
  rw [show ([unifierFixtureSeg] : List WSegment).enum = [(0, unifierFixtureSeg)] from rfl,
    List.foldl_cons, List.foldl_nil]
  show markIntersections
    (addConnection (addConnection [] (wkey ⟨0, 0⟩) ⟨0, 0⟩ ⟨unifierFixtureSeg, true, 0⟩)
      (wkey ⟨1000, 0⟩) ⟨1000, 0⟩ ⟨unifierFixtureSeg, false, 0⟩) = _
  rw [hk1, hk2]
  rfl

/-- Witness for `connectionPoint_classification`: the fixture's origin
connection point is in the unifier output, and the classification
equivalence holds there (one endpoint, so `false`). -/
theorem connectionPoint_classification_witness :
    unifierFixtureCp ∈ (buildUnifiedRoadNetwork [unifierFixtureSeg]).connectionPoints ∧
    (unifierFixtureCp.isIntersection = true ↔ 3 ≤ unifierFixtureCp.segments.length) := by
  have hmem : unifierFixtureCp ∈
      (buildUnifiedRoadNetwork [unifierFixtureSeg]).connectionPoints := by
    rw [unifierFixture_eval]
    exact List.mem_cons_self _ _
  exact ⟨hmem, connectionPoint_classification [unifierFixtureSeg] unifierFixtureCp hmem⟩

noncomputable section

/-- Ordered-association-list read, modelling JS `Map.get` (string keys
`${round x},${round y}` become `ℤ × ℤ`). -/
def mapGet {α : Type} (m : List ((ℤ × ℤ) × α)) (k : ℤ × ℤ) : Option α :=
  (m.find? (fun kv => decide (kv.1 = k))).map (·.2)

/-- Ordered-association-list write, modelling JS `Map.set` (update in
place if present, append otherwise; insertion order preserved). -/
def mapSet {α : Type} (m : List ((ℤ × ℤ) × α)) (k : ℤ × ℤ) (v : α) :
    List ((ℤ × ℤ) × α) :=
  if (m.find? (fun kv => decide (kv.1 = k))).isSome then
    m.map (fun kv => if kv.1 = k then (k, v) else kv)
  else m ++ [(k, v)]

/-- Function `findIntersections` from `city-generator-logic.ts`: all pairwise
intersection points, pairs in `i < j` order. -/
def findIntersections (segments : List Segment) : List Point :=
  (List.range segments.length).foldl
    (fun acc i =>
      (List.range' (i + 1) (segments.length - (i + 1))).foldl
        (fun acc2 j =>
          match doSegmentsIntersect (segments.getD i default).start
              (segments.getD i default).endP
              (segments.getD j default).start
              (segments.getD j default).endP with
          | some intersection => acc2 ++ [intersection]
          | none => acc2)
        acc)
    []

/-- The `${Math.round(x)},${Math.round(y)}` node key of `findCityBlocks`. -/
def nodeKey (p : Point) : ℤ × ℤ := (jsRound p.x, jsRound p.y)

/-- Push one `{node, segment}` record onto the adjacency entry of `k`
(the JS `adjacencyList.get(key)!.push(...)`; the key always exists by
construction). -/
def pushAdj (m : List ((ℤ × ℤ) × List ((ℤ × ℤ) × Segment))) (k : ℤ × ℤ)
    (v : (ℤ × ℤ) × Segment) : List ((ℤ × ℤ) × List ((ℤ × ℤ) × Segment)) :=
  m.map (fun kv => if kv.1 = k then (kv.1, kv.2 ++ [v]) else kv)

/-- Body of the `intersections.forEach` of `findCityBlocks`: register an
intersection point as a node (`Map.set`, overwriting) with an empty
adjacency entry. -/
def addIntersectionNode
    (acc : List ((ℤ × ℤ) × Point) × List ((ℤ × ℤ) × List ((ℤ × ℤ) × Segment)))
    (point : Point) :
    List ((ℤ × ℤ) × Point) × List ((ℤ × ℤ) × List ((ℤ × ℤ) × Segment)) :=
  (mapSet acc.1 (nodeKey point) point, mapSet acc.2 (nodeKey point) [])

/-- Body of the `segments.forEach` of `findCityBlocks`: register the two
endpoints as nodes when absent, then push the bidirectional
`{node, segment}` records. -/
def addSegmentEdges
    (acc : List ((ℤ × ℤ) × Point) × List ((ℤ × ℤ) × List ((ℤ × ℤ) × Segment)))
    (segment : Segment) :
    List ((ℤ × ℤ) × Point) × List ((ℤ × ℤ) × List ((ℤ × ℤ) × Segment)) :=
  let startKey := nodeKey segment.start
  let endKey := nodeKey segment.endP
  let acc1 :=
    if (mapGet acc.1 startKey).isSome then acc
    else (mapSet acc.1 startKey segment.start, mapSet acc.2 startKey [])
  let acc2 :=
    if (mapGet acc1.1 endKey).isSome then acc1
    else (mapSet acc1.1 endKey segment.endP, mapSet acc1.2 endKey [])
  (acc2.1, pushAdj (pushAdj acc2.2 startKey (endKey, segment)) endKey
    (startKey, segment))

/-- The node/adjacency construction of `findCityBlocks`: intersection
points first, then segment endpoints and edges. -/
def buildNodeGraph (intersections : List Point) (segments : List Segment) :
    List ((ℤ × ℤ) × Point) × List ((ℤ × ℤ) × List ((ℤ × ℤ) × Segment)) :=
  segments.foldl addSegmentEdges (intersections.foldl addIntersectionNode ([], []))

/-- State of the `findCityBlocks` polygon-tracing walk. -/
structure TraceState where
  polygon : List Point
  segmentPath : List Segment
  visited : List (ℤ × ℤ)
  currentKey : ℤ × ℤ
  prevKey : ℤ × ℤ

/-- The 20-step walk of `findCityBlocks`: stop on return to start, on a
repeated node, on a missing node, or on no eligible neighbor; otherwise
follow the rightmost turn (the neighbor maximizing the wrapped turn
angle; with a single eligible neighbor the angle code is skipped). -/
def traceWalk (nodeMap : List ((ℤ × ℤ) × Point))
    (adjacencyList : List ((ℤ × ℤ) × List ((ℤ × ℤ) × Segment))) (startKey : ℤ × ℤ) :
    ℕ → TraceState → TraceState
  | 0, st => st
  | step + 1, st =>
    if st.currentKey = startKey then st
    else if st.currentKey ∈ st.visited then st
    else
      match mapGet nodeMap st.currentKey with
      | none => st
      | some currentPoint =>
        let polygon := st.polygon ++ [currentPoint]
        let visited := st.visited ++ [st.currentKey]
        let connections := (mapGet adjacencyList st.currentKey).getD []
        let nextConnections := connections.filter (fun conn => decide (conn.1 ≠ st.prevKey))
        match h : nextConnections with
        | [] => { st with polygon := polygon, visited := visited }
        | c0 :: _ =>
          let bestNext :=
            if 1 < nextConnections.length then
              let prevPoint := (mapGet nodeMap st.prevKey).getD ⟨0, 0⟩
              let incomingAngle := jsAtan2 (currentPoint.y - prevPoint.y)
                (currentPoint.x - prevPoint.x)
              (nextConnections.foldl
                (fun (acc : ℝ × ((ℤ × ℤ) × Segment)) conn =>
                  let nextPoint := (mapGet nodeMap conn.1).getD ⟨0, 0⟩
                  let outgoingAngle := jsAtan2 (nextPoint.y - currentPoint.y)
                    (nextPoint.x - currentPoint.x)
                  let ta0 := outgoingAngle - incomingAngle
                  let ta1 := if ta0 < -Real.pi then ta0 + 2 * Real.pi else ta0
                  let turnAngle := if Real.pi < ta1 then ta1 - 2 * Real.pi else ta1
                  if acc.1 < turnAngle then (turnAngle, conn) else acc)
                (-Real.pi, c0)).2
            else c0
          traceWalk nodeMap adjacencyList startKey step
            { polygon := polygon,
              segmentPath := st.segmentPath ++ [bestNext.2],
              visited := visited,
              currentKey := bestNext.1,
              prevKey := st.currentKey }

/-- One `{points, segments}` record of `foundPolygons`. -/
structure FoundPolygon where
  points : List Point
  segments : List Segment

/-- Body of the inner neighbor `forEach`: skip visited directed edges,
otherwise run the 20-step walk from this edge and keep a closed trace
(marking only the seed edge visited). -/
def visitNeighbor (nodeMap : List ((ℤ × ℤ) × Point))
    (adjacencyList : List ((ℤ × ℤ) × List ((ℤ × ℤ) × Segment)))
    (startKey : ℤ × ℤ) (startPoint : Point)
    (acc2 : List ((ℤ × ℤ) × (ℤ × ℤ)) × List FoundPolygon)
    (conn : (ℤ × ℤ) × Segment) :
    List ((ℤ × ℤ) × (ℤ × ℤ)) × List FoundPolygon :=
  let edgeKey := (startKey, conn.1)
  if edgeKey ∈ acc2.1 then acc2
  else
    let final := traceWalk nodeMap adjacencyList startKey 20
      { polygon := [startPoint], segmentPath := [conn.2],
        visited := [], currentKey := conn.1, prevKey := startKey }
    if final.currentKey = startKey ∧ 3 ≤ final.polygon.length then
      (acc2.1 ++ [edgeKey], acc2.2 ++ [⟨final.polygon, final.segmentPath⟩])
    else acc2

/-- Body of the outer `nodeMap.forEach`: seed walks from every neighbor
record of this node. -/
def visitNode (nodeMap : List ((ℤ × ℤ) × Point))
    (adjacencyList : List ((ℤ × ℤ) × List ((ℤ × ℤ) × Segment)))
    (acc : List ((ℤ × ℤ) × (ℤ × ℤ)) × List FoundPolygon)
    (entry : (ℤ × ℤ) × Point) :
    List ((ℤ × ℤ) × (ℤ × ℤ)) × List FoundPolygon :=
  ((mapGet adjacencyList entry.1).getD []).foldl
    (visitNeighbor nodeMap adjacencyList entry.1 entry.2) acc

/-- The double `forEach` of `findCityBlocks` that seeds a walk from every
unvisited directed edge and keeps the closed traces. -/
def findClosedLoops (nodeMap : List ((ℤ × ℤ) × Point))
    (adjacencyList : List ((ℤ × ℤ) × List ((ℤ × ℤ) × Segment))) :
    List FoundPolygon :=
  (nodeMap.foldl (visitNode nodeMap adjacencyList) ([], [])).2

/-- The signed shoelace sum of `findCityBlocks` (`area` before
`Math.abs(area)/2`). -/
def shoelaceSum (polygon : List Point) : ℝ :=
  (List.range polygon.length).foldl
    (fun acc i =>
      let pi := polygon.getD i ⟨0, 0⟩
      let pj := polygon.getD ((i + 1) % polygon.length) ⟨0, 0⟩
      acc + (pi.x * pj.y - pj.x * pi.y))
    0

/-- The inset-polygon construction of `findCityBlocks`: each vertex is
displaced along the average of the two adjacent-edge left normals,
scaled to `edge width / 2 + 20`; degenerate edges or a degenerate
average contribute no vertex.  (`(i - 1 + len) % len` is written
`(i + len - 1) % len`, identical for `i ≥ 0`.) -/
def insetPolygonOf (polygon : List Point) (segmentPath : List Segment) :
    List Point :=
  (List.range polygon.length).foldl
    (fun acc i =>
      let currentPoint := polygon.getD i ⟨0, 0⟩
      let nextPoint := polygon.getD ((i + 1) % polygon.length) ⟨0, 0⟩
      let prevPoint := polygon.getD ((i + polygon.length - 1) % polygon.length) ⟨0, 0⟩
      let insetDistance :=
        if segmentPath.length = 0 then (60 : ℝ)
        else (segmentPath.getD (min i (segmentPath.length - 1)) default).width / 2 + 20
      let edge1 := (currentPoint.x - prevPoint.x, currentPoint.y - prevPoint.y)
      let edge2 := (nextPoint.x - currentPoint.x, nextPoint.y - currentPoint.y)
      let len1 := jsHypot edge1.1 edge1.2
      let len2 := jsHypot edge2.1 edge2.2
      if 0 < len1 ∧ 0 < len2 then
        let normal1 := (-edge1.2 / len1, edge1.1 / len1)
        let normal2 := (-edge2.2 / len2, edge2.1 / len2)
        let avgNormal := ((normal1.1 + normal2.1) / 2, (normal1.2 + normal2.2) / 2)
        let avgLen := jsHypot avgNormal.1 avgNormal.2
        if 0 < avgLen then
          acc ++ [⟨currentPoint.x + avgNormal.1 * (insetDistance / avgLen),
                  currentPoint.y + avgNormal.2 * (insetDistance / avgLen)⟩]
        else acc
      else acc)
    []

/-- A `{points, color}` city block. -/
structure CityBlock where
  points : List Point
  color : String

/-- The fixed block color palette. -/
def colors : List String :=
  ["#2a2a2a", "#252525", "#2f2f2f", "#1a1a1a", "#353535"]

/-- The per-polygon body of the final `foundPolygons.forEach`: skip
tiny/degenerate polygons (pre-inset shoelace area below 15000), then
inset; emit the inset only when it has at least 3 vertices. -/
def processPolygon (poly : FoundPolygon) : Option (List Point) :=
  if poly.points.length < 3 then none
  else if |shoelaceSum poly.points| / 2 < 15000 then none
  else
    let insetPolygon := insetPolygonOf poly.points poly.segments
    if 3 ≤ insetPolygon.length then some insetPolygon else none

/-- Emission of the surviving blocks, drawing one `Math.random()` value
(the unseeded browser stream, modelled as an explicit function of the
draw counter) per emitted block for its palette color. -/
def assignColors (polys : List FoundPolygon) (mathRandom : ℕ → ℝ) (n : ℕ) :
    List CityBlock :=
  match polys with
  | [] => []
  | p :: rest =>
    match processPolygon p with
    | none => assignColors rest mathRandom n
    | some pts =>
      { points := pts,
        color := colors.getD (⌊mathRandom n * (colors.length : ℝ)⌋).toNat "" } ::
        assignColors rest mathRandom (n + 1)

/-- Function `findCityBlocks` from `city-generator-logic.ts`, with the unseeded
`Math.random` stream passed explicitly. -/
def findCityBlocks (segments : List Segment) (mathRandom : ℕ → ℝ) :
    List CityBlock :=
  if segments.length = 0 then []
  else
    let intersections := findIntersections segments
    let g := buildNodeGraph intersections segments
    assignColors (findClosedLoops g.1 g.2) mathRandom 0

end

/-- Block emission is color-stream-insensitive in geometry: the emitted
point lists do not depend on the `Math.random` stream or the draw
counter. -/
theorem assignColors_points_eq (polys : List FoundPolygon) (r1 r2 : ℕ → ℝ)
    (n1 n2 : ℕ) :
    (assignColors polys r1 n1).map (·.points) =
      (assignColors polys r2 n2).map (·.points) := by
  induction polys generalizing n1 n2 with
  | nil => rfl
  | cons p rest ih =>
    unfold assignColors
    cases hp : processPolygon p with
    | none => exact ih n1 n2
    | some pts => simp [ih (n1 + 1) (n2 + 1)]

/-- C10: block geometry is a deterministic function of the input
segments — two `findCityBlocks` calls on equal segment lists produce
identical polygon point lists position by position; only the `color`
field can differ between the calls, because it alone consumes the
unseeded `Math.random` stream. -/
theorem findCityBlocks_points_deterministic (segments : List Segment)
    (r1 r2 : ℕ → ℝ) :
    (findCityBlocks segments r1).map (·.points) =
      (findCityBlocks segments r2).map (·.points) := by
  unfold findCityBlocks
  split
  · rfl
  · exact assignColors_points_eq _ _ _ 0 0

/-- Inversion of `processPolygon`: an emitted inset comes from a traced
polygon with at least 3 vertices and pre-inset area at least 15000, and
itself has at least 3 vertices. -/
theorem processPolygon_some (poly : FoundPolygon) (pts : List Point)
    (h : processPolygon poly = some pts) :
    3 ≤ poly.points.length ∧ 15000 ≤ |shoelaceSum poly.points| / 2 ∧
    3 ≤ pts.length := by
  unfold processPolygon at h
  split at h
  · exact absurd h (by simp)
  · split at h
    · exact absurd h (by simp)
    · dsimp only at h
      split at h
      · injection h with h'
        rw [← h']
        refine ⟨by omega, by linarith [not_lt.mp (by assumption :
          ¬ |shoelaceSum poly.points| / 2 < 15000)], by assumption⟩
      · exact absurd h (by simp)

/-- Every emitted block satisfies the 3-vertex bound. -/
theorem assignColors_three_le (polys : List FoundPolygon) (r : ℕ → ℝ) (n : ℕ) :
    ∀ b ∈ assignColors polys r n, 3 ≤ b.points.length := by
  induction polys generalizing n with
  | nil => intro b hb; cases hb
  | cons p rest ih =>
    intro b hb
    unfold assignColors at hb
    revert hb
    cases hp : processPolygon p with
    | none =>
      intro hb
      exact ih n b hb
    | some pts =>
      intro hb
      rcases List.mem_cons.mp hb with h | h
      · rw [h]
        exact (processPolygon_some p pts hp).2.2
      · exact ih (n + 1) b h

/-- C8 (amended): every city block emitted by `findCityBlocks` is a
polygon with at least 3 vertices, and the area filter of at least 15000
is applied to the *traced pre-inset* polygon (any traced polygon
surviving to emission has shoelace area ≥ 15000); the emitted inset
polygon's own shoelace area is not constrained and can drop below 15000
(see the counterexample). -/
theorem blocks_amended :
    (∀ (segments : List Segment) (mathRandom : ℕ → ℝ),
      ∀ b ∈ findCityBlocks segments mathRandom, 3 ≤ b.points.length) ∧
    (∀ (poly : FoundPolygon) (pts : List Point), processPolygon poly = some pts →
      3 ≤ poly.points.length ∧ 15000 ≤ |shoelaceSum poly.points| / 2 ∧
      3 ≤ pts.length) := by
  constructor
  · intro segments mathRandom b hb
    unfold findCityBlocks at hb
    revert hb
    split
    · intro hb; cases hb
    · intro hb
      exact assignColors_three_le _ _ _ b hb
  · exact processPolygon_some

noncomputable section

/-- Street-width fixture segment (only geometry and `width` feed
`findCityBlocks`). -/
def sqSeg (a b : Point) (cid : ℕ) : Segment :=
  { id := 0, start := a, endP := b, width := 6, t := 0, highway := false,
    dir := 0, length := 0, severed := false, linksF := [], linksB := [],
    cid := cid }

/-- Bottom side of the square fixture, (0,0)→(123,0). -/
def sqS0 : Segment := sqSeg ⟨0, 0⟩ ⟨123, 0⟩ 0

/-- Right side, (123,0)→(123,123). -/
def sqS1 : Segment := sqSeg ⟨123, 0⟩ ⟨123, 123⟩ 1

/-- Top side, (123,123)→(0,123). -/
def sqS2 : Segment := sqSeg ⟨123, 123⟩ ⟨0, 123⟩ 2

/-- Left side, (0,123)→(0,0). -/
def sqS3 : Segment := sqSeg ⟨0, 123⟩ ⟨0, 0⟩ 3

/-- Four street segments forming an axis-aligned square of side 123:
its traced loop has area 15129 ≥ 15000, while the inset block has area
(123 - 23√2)² < 15000. -/
def squareFixture : List Segment := [sqS0, sqS1, sqS2, sqS3]

end

/-- Adjacent square sides meet at the shared corner (123,0). -/
theorem sq_int01 :
    doSegmentsIntersect ⟨0, 0⟩ ⟨123, 0⟩ ⟨123, 0⟩ ⟨123, 123⟩ = some ⟨123, 0⟩ := by
  simp only [doSegmentsIntersect]
  norm_num

/-- Opposite horizontal sides are parallel. -/
theorem sq_int02 :
    doSegmentsIntersect ⟨0, 0⟩ ⟨123, 0⟩ ⟨123, 123⟩ ⟨0, 123⟩ = none := by
  simp only [doSegmentsIntersect]
  norm_num

/-- Bottom and left sides meet at the origin corner. -/
theorem sq_int03 :
    doSegmentsIntersect ⟨0, 0⟩ ⟨123, 0⟩ ⟨0, 123⟩ ⟨0, 0⟩ = some ⟨0, 0⟩ := by
  simp only [doSegmentsIntersect]
  norm_num

/-- Right and top sides meet at the corner (123,123). -/
theorem sq_int12 :
    doSegmentsIntersect ⟨123, 0⟩ ⟨123, 123⟩ ⟨123, 123⟩ ⟨0, 123⟩ =
      some ⟨123, 123⟩ := by
  simp only [doSegmentsIntersect]
  norm_num

/-- Opposite vertical sides are parallel. -/
theorem sq_int13 :
    doSegmentsIntersect ⟨123, 0⟩ ⟨123, 123⟩ ⟨0, 123⟩ ⟨0, 0⟩ = none := by
  simp only [doSegmentsIntersect]
  norm_num

/-- Top and left sides meet at the corner (0,123). -/
theorem sq_int23 :
    doSegmentsIntersect ⟨123, 123⟩ ⟨0, 123⟩ ⟨0, 123⟩ ⟨0, 0⟩ =
      some ⟨0, 123⟩ := by
  simp only [doSegmentsIntersect]
  norm_num

/-- Evaluation of `findIntersections` on the square: the four corners, in pair order. -/
theorem sq_intersections :
    findIntersections squareFixture =
      [⟨123, 0⟩, ⟨0, 0⟩, ⟨123, 123⟩, ⟨0, 123⟩] := by
  unfold findIntersections
  rw [show squareFixture.length = 4 from rfl,
    show List.range 4 = [0, 1, 2, 3] from rfl]
  simp only [List.foldl_cons, List.foldl_nil]
  rw [show List.range' (0 + 1) (4 - (0 + 1)) = [1, 2, 3] from rfl,
    show List.range' (1 + 1) (4 - (1 + 1)) = [2, 3] from rfl,
    show List.range' (2 + 1) (4 - (2 + 1)) = [3] from rfl,
    show List.range' (3 + 1) (4 - (3 + 1)) = [] from rfl]
  simp only [List.foldl_cons, List.foldl_nil]
  rw [show squareFixture.getD 0 default = sqS0 from rfl,
    show squareFixture.getD 1 default = sqS1 from rfl,
    show squareFixture.getD 2 default = sqS2 from rfl,
    show squareFixture.getD 3 default = sqS3 from rfl,
    show sqS0.start = ⟨0, 0⟩ from rfl, show sqS0.endP = ⟨123, 0⟩ from rfl,
    show sqS1.start = ⟨123, 0⟩ from rfl, show sqS1.endP = ⟨123, 123⟩ from rfl,
    show sqS2.start = ⟨123, 123⟩ from rfl, show sqS2.endP = ⟨0, 123⟩ from rfl,
    show sqS3.start = ⟨0, 123⟩ from rfl, show sqS3.endP = ⟨0, 0⟩ from rfl,
    sq_int01, sq_int02, sq_int03, sq_int12, sq_int13, sq_int23]
  rfl

/-- Rounding fact `Math.round 0 = 0`. -/
theorem jsRound_zero : jsRound (0 : ℝ) = 0 := by
  unfold jsRound
  norm_num

/-- Rounding fact `Math.round 123 = 123`. -/
theorem jsRound_123 : jsRound (123 : ℝ) = 123 := by
  unfold jsRound
  norm_num

/-- Rounded key of the origin corner. -/
theorem sq_keyA : nodeKey ⟨0, 0⟩ = (0, 0) := by
  show (jsRound 0, jsRound 0) = (0, 0)
  rw [jsRound_zero]

/-- Rounded key of the corner (123,0). -/
theorem sq_keyB : nodeKey ⟨123, 0⟩ = (123, 0) := by
  show (jsRound 123, jsRound 0) = (123, 0)
  rw [jsRound_zero, jsRound_123]

/-- Rounded key of the corner (123,123). -/
theorem sq_keyC : nodeKey ⟨123, 123⟩ = (123, 123) := by
  show (jsRound 123, jsRound 123) = (123, 123)
  rw [jsRound_123]

/-- Rounded key of the corner (0,123). -/
theorem sq_keyD : nodeKey ⟨0, 123⟩ = (0, 123) := by
  show (jsRound 0, jsRound 123) = (0, 123)
  rw [jsRound_zero, jsRound_123]

/-- The node/adjacency graph of the square fixture: four corner nodes in
intersection order, each adjacent to its two neighboring corners. -/
theorem sq_graph :
    buildNodeGraph [⟨123, 0⟩, ⟨0, 0⟩, ⟨123, 123⟩, ⟨0, 123⟩] squareFixture =
      ([((123, 0), ⟨123, 0⟩), ((0, 0), ⟨0, 0⟩),
        ((123, 123), ⟨123, 123⟩), ((0, 123), ⟨0, 123⟩)],
       [((123, 0), [((0, 0), sqS0), ((123, 123), sqS1)]),
        ((0, 0), [((123, 0), sqS0), ((0, 123), sqS3)]),
        ((123, 123), [((123, 0), sqS1), ((0, 123), sqS2)]),
        ((0, 123), [((123, 123), sqS2), ((0, 0), sqS3)])]) := by
  have h1 : addIntersectionNode ([], []) ⟨123, 0⟩ =
      ([((123, 0), ⟨123, 0⟩)], [((123, 0), [])]) := by
    unfold addIntersectionNode
    rw [sq_keyB]
    rfl
  have h2 : addIntersectionNode ([((123, 0), ⟨123, 0⟩)], [((123, 0), [])]) ⟨0, 0⟩ =
      ([((123, 0), ⟨123, 0⟩), ((0, 0), ⟨0, 0⟩)],
       [((123, 0), []), ((0, 0), [])]) := by
    unfold addIntersectionNode
    rw [sq_keyA]
    rfl
  have h3 : addIntersectionNode
      ([((123, 0), ⟨123, 0⟩), ((0, 0), ⟨0, 0⟩)],
       [((123, 0), []), ((0, 0), [])]) ⟨123, 123⟩ =
      ([((123, 0), ⟨123, 0⟩), ((0, 0), ⟨0, 0⟩), ((123, 123), ⟨123, 123⟩)],
       [((123, 0), []), ((0, 0), []), ((123, 123), [])]) := by
    unfold addIntersectionNode
    rw [sq_keyC]
    rfl
  have h4 : addIntersectionNode
      ([((123, 0), ⟨123, 0⟩), ((0, 0), ⟨0, 0⟩), ((123, 123), ⟨123, 123⟩)],
       [((123, 0), []), ((0, 0), []), ((123, 123), [])]) ⟨0, 123⟩ =
      ([((123, 0), ⟨123, 0⟩), ((0, 0), ⟨0, 0⟩), ((123, 123), ⟨123, 123⟩),
        ((0, 123), ⟨0, 123⟩)],
       [((123, 0), []), ((0, 0), []), ((123, 123), []), ((0, 123), [])]) := by
    unfold addIntersectionNode
    rw [sq_keyD]
    rfl
  have h5 : addSegmentEdges
      ([((123, 0), ⟨123, 0⟩), ((0, 0), ⟨0, 0⟩), ((123, 123), ⟨123, 123⟩),
        ((0, 123), ⟨0, 123⟩)],
       [((123, 0), []), ((0, 0), []), ((123, 123), []), ((0, 123), [])]) sqS0 =
      ([((123, 0), ⟨123, 0⟩), ((0, 0), ⟨0, 0⟩), ((123, 123), ⟨123, 123⟩),
        ((0, 123), ⟨0, 123⟩)],
       [((123, 0), [((0, 0), sqS0)]), ((0, 0), [((123, 0), sqS0)]),
        ((123, 123), []), ((0, 123), [])]) := by
    unfold addSegmentEdges
    rw [show sqS0.start = ⟨0, 0⟩ from rfl, show sqS0.endP = ⟨123, 0⟩ from rfl,
      sq_keyA, sq_keyB]
    rfl
  have h6 : addSegmentEdges
      ([((123, 0), ⟨123, 0⟩), ((0, 0), ⟨0, 0⟩), ((123, 123), ⟨123, 123⟩),
        ((0, 123), ⟨0, 123⟩)],
       [((123, 0), [((0, 0), sqS0)]), ((0, 0), [((123, 0), sqS0)]),
        ((123, 123), []), ((0, 123), [])]) sqS1 =
      ([((123, 0), ⟨123, 0⟩), ((0, 0), ⟨0, 0⟩), ((123, 123), ⟨123, 123⟩),
        ((0, 123), ⟨0, 123⟩)],
       [((123, 0), [((0, 0), sqS0), ((123, 123), sqS1)]),
        ((0, 0), [((123, 0), sqS0)]),
        ((123, 123), [((123, 0), sqS1)]), ((0, 123), [])]) := by
    unfold addSegmentEdges
    rw [show sqS1.start = ⟨123, 0⟩ from rfl, show sqS1.endP = ⟨123, 123⟩ from rfl,
      sq_keyB, sq_keyC]
    rfl
  have h7 : addSegmentEdges
      ([((123, 0), ⟨123, 0⟩), ((0, 0), ⟨0, 0⟩), ((123, 123), ⟨123, 123⟩),
        ((0, 123), ⟨0, 123⟩)],
       [((123, 0), [((0, 0), sqS0), ((123, 123), sqS1)]),
        ((0, 0), [((123, 0), sqS0)]),
        ((123, 123), [((123, 0), sqS1)]), ((0, 123), [])]) sqS2 =
      ([((123, 0), ⟨123, 0⟩), ((0, 0), ⟨0, 0⟩), ((123, 123), ⟨123, 123⟩),
        ((0, 123), ⟨0, 123⟩)],
       [((123, 0), [((0, 0), sqS0), ((123, 123), sqS1)]),
        ((0, 0), [((123, 0), sqS0)]),
        ((123, 123), [((123, 0), sqS1), ((0, 123), sqS2)]),
        ((0, 123), [((123, 123), sqS2)])]) := by
    unfold addSegmentEdges
    rw [show sqS2.start = ⟨123, 123⟩ from rfl, show sqS2.endP = ⟨0, 123⟩ from rfl,
      sq_keyC, sq_keyD]
    rfl
  have h8 : addSegmentEdges
      ([((123, 0), ⟨123, 0⟩), ((0, 0), ⟨0, 0⟩), ((123, 123), ⟨123, 123⟩),
        ((0, 123), ⟨0, 123⟩)],
       [((123, 0), [((0, 0), sqS0), ((123, 123), sqS1)]),
        ((0, 0), [((123, 0), sqS0)]),
        ((123, 123), [((123, 0), sqS1), ((0, 123), sqS2)]),
        ((0, 123), [((123, 123), sqS2)])]) sqS3 =
      ([((123, 0), ⟨123, 0⟩), ((0, 0), ⟨0, 0⟩), ((123, 123), ⟨123, 123⟩),
        ((0, 123), ⟨0, 123⟩)],
       [((123, 0), [((0, 0), sqS0), ((123, 123), sqS1)]),
        ((0, 0), [((123, 0), sqS0), ((0, 123), sqS3)]),
        ((123, 123), [((123, 0), sqS1), ((0, 123), sqS2)]),
        ((0, 123), [((123, 123), sqS2), ((0, 0), sqS3)])]) := by
    unfold addSegmentEdges
    rw [show sqS3.start = ⟨0, 123⟩ from rfl, show sqS3.endP = ⟨0, 0⟩ from rfl,
      sq_keyD, sq_keyA]
    rfl
  unfold buildNodeGraph
  rw [show squareFixture = [sqS0, sqS1, sqS2, sqS3] from rfl]
  simp only [List.foldl_cons, List.foldl_nil]
  rw [h1, h2, h3, h4, h5, h6, h7, h8]

noncomputable section

/-- The square fixture's node map (as produced by `buildNodeGraph`). -/
def sqNodeMap : List ((ℤ × ℤ) × Point) :=
  [((123, 0), ⟨123, 0⟩), ((0, 0), ⟨0, 0⟩), ((123, 123), ⟨123, 123⟩),
   ((0, 123), ⟨0, 123⟩)]

/-- The square fixture's adjacency list. -/
def sqAdj : List ((ℤ × ℤ) × List ((ℤ × ℤ) × Segment)) :=
  [((123, 0), [((0, 0), sqS0), ((123, 123), sqS1)]),
   ((0, 0), [((123, 0), sqS0), ((0, 123), sqS3)]),
   ((123, 123), [((123, 0), sqS1), ((0, 123), sqS2)]),
   ((0, 123), [((123, 123), sqS2), ((0, 0), sqS3)])]

/-- Trace seeded at (123,0) toward (0,0): the clockwise square. -/
def sqPoly0 : FoundPolygon :=
  ⟨[⟨123, 0⟩, ⟨0, 0⟩, ⟨0, 123⟩, ⟨123, 123⟩], [sqS0, sqS3, sqS2, sqS1]⟩

/-- Trace seeded at (123,0) toward (123,123): the counterclockwise
square — the block whose inset shrinks below the area threshold. -/
def sqPoly1 : FoundPolygon :=
  ⟨[⟨123, 0⟩, ⟨123, 123⟩, ⟨0, 123⟩, ⟨0, 0⟩], [sqS1, sqS2, sqS3, sqS0]⟩

/-- Trace seeded at (0,0) toward (123,0). -/
def sqPoly2 : FoundPolygon :=
  ⟨[⟨0, 0⟩, ⟨123, 0⟩, ⟨123, 123⟩, ⟨0, 123⟩], [sqS0, sqS1, sqS2, sqS3]⟩

/-- Trace seeded at (0,0) toward (0,123). -/
def sqPoly3 : FoundPolygon :=
  ⟨[⟨0, 0⟩, ⟨0, 123⟩, ⟨123, 123⟩, ⟨123, 0⟩], [sqS3, sqS2, sqS1, sqS0]⟩

/-- Trace seeded at (123,123) toward (123,0). -/
def sqPoly4 : FoundPolygon :=
  ⟨[⟨123, 123⟩, ⟨123, 0⟩, ⟨0, 0⟩, ⟨0, 123⟩], [sqS1, sqS0, sqS3, sqS2]⟩

/-- Trace seeded at (123,123) toward (0,123). -/
def sqPoly5 : FoundPolygon :=
  ⟨[⟨123, 123⟩, ⟨0, 123⟩, ⟨0, 0⟩, ⟨123, 0⟩], [sqS2, sqS3, sqS0, sqS1]⟩

/-- Trace seeded at (0,123) toward (123,123). -/
def sqPoly6 : FoundPolygon :=
  ⟨[⟨0, 123⟩, ⟨123, 123⟩, ⟨123, 0⟩, ⟨0, 0⟩], [sqS2, sqS1, sqS0, sqS3]⟩

/-- Trace seeded at (0,123) toward (0,0). -/
def sqPoly7 : FoundPolygon :=
  ⟨[⟨0, 123⟩, ⟨0, 0⟩, ⟨123, 0⟩, ⟨123, 123⟩], [sqS3, sqS0, sqS1, sqS2]⟩

end

/-- Evaluation of `buildNodeGraph` of the square, phrased with the named fixtures. -/
theorem sq_graph_named :
    buildNodeGraph [⟨123, 0⟩, ⟨0, 0⟩, ⟨123, 123⟩, ⟨0, 123⟩] squareFixture =
      (sqNodeMap, sqAdj) := sq_graph

/-- The eight closed traces of the square fixture, in discovery order. -/
theorem sq_loops :
    findClosedLoops sqNodeMap sqAdj =
      [sqPoly0, sqPoly1, sqPoly2, sqPoly3, sqPoly4, sqPoly5, sqPoly6, sqPoly7] := rfl

/-- Shoelace sum of the clockwise trace: -30258 (area 15129). -/
theorem sq_sum0 : shoelaceSum sqPoly0.points = -30258 := by
  show shoelaceSum [⟨123, 0⟩, ⟨0, 0⟩, ⟨0, 123⟩, ⟨123, 123⟩] = -30258
  unfold shoelaceSum
  rw [show ([(⟨123, 0⟩ : Point), ⟨0, 0⟩, ⟨0, 123⟩, ⟨123, 123⟩]).length = 4 from rfl,
    show List.range 4 = [0, 1, 2, 3] from rfl]
  simp only [List.foldl_cons, List.foldl_nil]
  norm_num [List.getD]

/-- Shoelace sum of the counterclockwise trace: 30258 (area 15129). -/
theorem sq_sum1 : shoelaceSum sqPoly1.points = 30258 := by
  show shoelaceSum [⟨123, 0⟩, ⟨123, 123⟩, ⟨0, 123⟩, ⟨0, 0⟩] = 30258
  unfold shoelaceSum
  rw [show ([(⟨123, 0⟩ : Point), ⟨123, 123⟩, ⟨0, 123⟩, ⟨0, 0⟩]).length = 4 from rfl,
    show List.range 4 = [0, 1, 2, 3] from rfl]
  simp only [List.foldl_cons, List.foldl_nil]
  norm_num [List.getD]

noncomputable section

/-- The per-axis corner displacement of the square's inset:
(1/2)·(23/√(1/2)) = 23√2/2 ≈ 16.26 (street inset distance 23 scaled by
the averaged-normal length √(1/2)). -/
def insetC : ℝ := 1 / 2 * (23 / Real.sqrt (1 / 2))

end

/-- Inset of the counterclockwise trace: the corners move inward, giving
a square of side 123 - 2·insetC. -/
theorem sq_inset1 :
    insetPolygonOf sqPoly1.points sqPoly1.segments =
      [⟨123 - insetC, insetC⟩, ⟨123 - insetC, 123 - insetC⟩,
       ⟨insetC, 123 - insetC⟩, ⟨insetC, insetC⟩] := by
  have hs : Real.sqrt 15129 = 123 :=
    real_sqrt_eq_of_sq _ _ (by norm_num) (by norm_num)
  show insetPolygonOf [⟨123, 0⟩, ⟨123, 123⟩, ⟨0, 123⟩, ⟨0, 0⟩]
      [sqS1, sqS2, sqS3, sqS0] = _
  unfold insetPolygonOf
  rw [show ([(⟨123, 0⟩ : Point), ⟨123, 123⟩, ⟨0, 123⟩, ⟨0, 0⟩]).length = 4 from rfl,
    show List.range 4 = [0, 1, 2, 3] from rfl]
  simp only [List.foldl_cons, List.foldl_nil]
  norm_num [List.getD, sqS0, sqS1, sqS2, sqS3, sqSeg, jsHypot, hs,
    Real.sqrt_pos, insetC]
  ring_nf

/-- Inset of the clockwise trace: the averaged left normals point
outward, so the "inset" grows to a square of side 123 + 2·insetC. -/
theorem sq_inset0 :
    insetPolygonOf sqPoly0.points sqPoly0.segments =
      [⟨123 + insetC, -insetC⟩, ⟨-insetC, -insetC⟩,
       ⟨-insetC, 123 + insetC⟩, ⟨123 + insetC, 123 + insetC⟩] := by
  have hs : Real.sqrt 15129 = 123 :=
    real_sqrt_eq_of_sq _ _ (by norm_num) (by norm_num)
  show insetPolygonOf [⟨123, 0⟩, ⟨0, 0⟩, ⟨0, 123⟩, ⟨123, 123⟩]
      [sqS0, sqS3, sqS2, sqS1] = _
  unfold insetPolygonOf
  rw [show ([(⟨123, 0⟩ : Point), ⟨0, 0⟩, ⟨0, 123⟩, ⟨123, 123⟩]).length = 4 from rfl,
    show List.range 4 = [0, 1, 2, 3] from rfl]
  simp only [List.foldl_cons, List.foldl_nil]
  norm_num [List.getD, sqS0, sqS1, sqS2, sqS3, sqSeg, jsHypot, hs,
    Real.sqrt_pos, insetC]

/-- The clockwise trace passes the area filter (15129 ≥ 15000) and emits
its grown inset. -/
theorem sq_process0 :
    processPolygon sqPoly0 =
      some [⟨123 + insetC, -insetC⟩, ⟨-insetC, -insetC⟩,
            ⟨-insetC, 123 + insetC⟩, ⟨123 + insetC, 123 + insetC⟩] := by
  unfold processPolygon
  rw [sq_sum0, sq_inset0]
  norm_num [show sqPoly0.points.length = 4 from rfl]

/-- The counterclockwise trace passes the area filter and emits its
shrunken inset. -/
theorem sq_process1 :
    processPolygon sqPoly1 =
      some [⟨123 - insetC, insetC⟩, ⟨123 - insetC, 123 - insetC⟩,
            ⟨insetC, 123 - insetC⟩, ⟨insetC, insetC⟩] := by
  unfold processPolygon
  rw [sq_sum1, sq_inset1]
  norm_num [show sqPoly1.points.length = 4 from rfl]

/-- The corner displacement is positive. -/
theorem insetC_pos : 0 < insetC := by
  unfold insetC
  positivity

/-- Fact `insetC² = 529/2` (so `insetC = 23√2/2 ≈ 16.26`). -/
theorem insetC_sq : insetC ^ 2 = 529 / 2 := by
  unfold insetC
  simp only [mul_pow, div_pow, Real.sq_sqrt (by norm_num : (0 : ℝ) ≤ 1 / 2)]
  norm_num

/-- The shrunken inset square's shoelace area, (123 - 2·insetC)² ≈ 8185,
is below the 15000 threshold. -/
theorem sq_inset1_area_lt :
    |shoelaceSum [⟨123 - insetC, insetC⟩, ⟨123 - insetC, 123 - insetC⟩,
      ⟨insetC, 123 - insetC⟩, ⟨insetC, insetC⟩]| / 2 < 15000 := by
  have hsum : shoelaceSum [(⟨123 - insetC, insetC⟩ : Point),
      ⟨123 - insetC, 123 - insetC⟩, ⟨insetC, 123 - insetC⟩, ⟨insetC, insetC⟩] =
      2 * (123 - 2 * insetC) ^ 2 := by
    unfold shoelaceSum
    rw [show ([(⟨123 - insetC, insetC⟩ : Point), ⟨123 - insetC, 123 - insetC⟩,
        ⟨insetC, 123 - insetC⟩, ⟨insetC, insetC⟩]).length = 4 from rfl,
      show List.range 4 = [0, 1, 2, 3] from rfl]
    simp only [List.foldl_cons, List.foldl_nil]
    norm_num [List.getD]
    ring
  rw [hsum]
  have h1 := insetC_sq
  have h2 := insetC_pos
  have h16 : 16 < insetC := by nlinarith
  rw [abs_of_nonneg (by positivity : (0 : ℝ) ≤ 2 * (123 - 2 * insetC) ^ 2)]
  nlinarith

/-- Emitting a block: the surviving polygon contributes its inset and
one color draw, and emission continues with the next draw index. -/
theorem assignColors_cons_some (p : FoundPolygon) (polys : List FoundPolygon)
    (r : ℕ → ℝ) (n : ℕ) (pts : List Point) (h : processPolygon p = some pts) :
    assignColors (p :: polys) r n =
      { points := pts,
        color := colors.getD (⌊r n * (colors.length : ℝ)⌋).toNat "" } ::
      assignColors polys r (n + 1) := by
  conv_lhs => simp only [assignColors]
  rw [h]

/-- Full evaluation of `findCityBlocks` on the square fixture, up to the
geometry of the first two emitted blocks. -/
theorem sq_blocks_eval :
    (findCityBlocks squareFixture (fun _ => 0)).map (·.points) =
      [(⟨123 + insetC, -insetC⟩ : Point), ⟨-insetC, -insetC⟩,
       ⟨-insetC, 123 + insetC⟩, ⟨123 + insetC, 123 + insetC⟩] ::
      [(⟨123 - insetC, insetC⟩ : Point), ⟨123 - insetC, 123 - insetC⟩,
       ⟨insetC, 123 - insetC⟩, ⟨insetC, insetC⟩] ::
      (assignColors [sqPoly2, sqPoly3, sqPoly4, sqPoly5, sqPoly6, sqPoly7]
        (fun _ => 0) 2).map (·.points) := by
  unfold findCityBlocks
  rw [if_neg (by norm_num [show squareFixture.length = 4 from rfl] :
    ¬ squareFixture.length = 0)]
  rw [sq_intersections]
  dsimp only
  rw [sq_graph_named]
  dsimp only
  rw [sq_loops]
  rw [assignColors_cons_some _ _ _ _ _ sq_process0,
    assignColors_cons_some _ _ _ _ _ sq_process1]
  simp only [List.map_cons]

/-- C8 counterexample: on the square fixture the second emitted block's
own polygon — the inset of the counterclockwise trace — has shoelace
area (123 - 2·insetC)² ≈ 8185 < 15000, although its traced pre-inset
polygon passed the 15000 area filter; so an emitted city block need not
have shoelace area at least 15000. -/
theorem blocks_area_cex :
    2 ≤ (findCityBlocks squareFixture (fun _ => 0)).length ∧
    ((findCityBlocks squareFixture (fun _ => 0)).map (·.points)).getD 1 [] =
      [⟨123 - insetC, insetC⟩, ⟨123 - insetC, 123 - insetC⟩,
       ⟨insetC, 123 - insetC⟩, ⟨insetC, insetC⟩] ∧
    |shoelaceSum (((findCityBlocks squareFixture
      (fun _ => 0)).map (·.points)).getD 1 [])| / 2 < 15000 := by
  refine ⟨?_, ?_, ?_⟩
  · rw [show (findCityBlocks squareFixture (fun _ => 0)).length =
        ((findCityBlocks squareFixture (fun _ => 0)).map (·.points)).length from
      (List.length_map _ _).symm, sq_blocks_eval]
    simp
  · rw [sq_blocks_eval]
    rfl
  · rw [sq_blocks_eval]
    exact sq_inset1_area_lt

/-- Membership: `getD 0` of a non-empty list is a member. -/
theorem getD_zero_mem {α : Type} (l : List α) (d : α) (h : l ≠ []) :
    l.getD 0 d ∈ l := by
  cases l with
  | nil => exact absurd rfl h
  | cons a t => exact List.mem_cons_self _ _

/-- Witness for `blocks_amended`: the square fixture emits blocks — its
first block is a member with at least 3 vertices — and the
counterclockwise trace instantiates the emission inversion with
pre-inset area 15129 ≥ 15000. -/
theorem blocks_amended_witness :
    ((findCityBlocks squareFixture (fun _ => 0)).getD 0 ⟨[], ""⟩ ∈
      findCityBlocks squareFixture (fun _ => 0)) ∧
    3 ≤ ((findCityBlocks squareFixture (fun _ => 0)).getD 0 ⟨[], ""⟩).points.length ∧
    processPolygon sqPoly1 =
      some [⟨123 - insetC, insetC⟩, ⟨123 - insetC, 123 - insetC⟩,
            ⟨insetC, 123 - insetC⟩, ⟨insetC, insetC⟩] ∧
    (3 ≤ sqPoly1.points.length ∧ 15000 ≤ |shoelaceSum sqPoly1.points| / 2 ∧
     3 ≤ ([(⟨123 - insetC, insetC⟩ : Point), ⟨123 - insetC, 123 - insetC⟩,
           ⟨insetC, 123 - insetC⟩, ⟨insetC, insetC⟩]).length) := by
  have hlen : 2 ≤ (findCityBlocks squareFixture (fun _ => 0)).length := by
    rw [show (findCityBlocks squareFixture (fun _ => 0)).length =
        ((findCityBlocks squareFixture (fun _ => 0)).map (·.points)).length from
      (List.length_map _ _).symm, sq_blocks_eval]
    simp
  have hne : findCityBlocks squareFixture (fun _ => 0) ≠ [] := by
    intro h
    rw [h] at hlen
    simp at hlen
  have hmem := getD_zero_mem (findCityBlocks squareFixture (fun _ => 0)) ⟨[], ""⟩ hne
  exact ⟨hmem, blocks_amended.1 squareFixture (fun _ => 0) _ hmem, sq_process1,
    blocks_amended.2 sqPoly1 _ sq_process1⟩
